import Mathlib

/-!
Verification development for the query-understanding and dispatch engine of
the ai-model-rag-system repository.  The Python sources embedded here are
`src/query_engine/query_parser.py` (intent classification, rule-based
parameter extraction) and `src/query_engine/search_dispatcher.py` (dispatch,
handlers, comparison generators, filter translation).

Modelling conventions:
* Python dynamic values are embedded as the inductive type `Value`
  (`None`, `bool`, `int`, `float` as rationals, `str`, `list`, `dict`).
  A Python dict is an insertion-ordered association list with unique keys;
  `d[k] = v` is `insertD` (replace a present key in place, else append) and
  `d.get(k)` is `lookupD`.
* Exception-raising code is embedded in `Except String`; the error string
  stands for the Python exception and its message.
* Collaborators (the regular-expression engine applied to the fixed pattern
  tables, spaCy, the Chroma client, the embedders, wall-clock time) are
  supplied as explicit environment records and function arguments; each
  embedded function applies them exactly where the source does.
-/

set_option autoImplicit false

namespace RagSystem

/-- Embedding of a Python runtime value as it appears in parameter bags,
filters, responses and envelopes. `vnum` are Python floats (embedded as
rationals), `vint` Python ints, `vinf` the value `float(&#39;inf&#39;)`. -/
inductive Value where
  | vnone
  | vbool (b : Bool)
  | vint (n : Int)
  | vnum (q : ℚ)
  | vinf
  | vstr (s : String)
  | vlist (xs : List Value)
  | vdict (kvs : List (String × Value))
  deriving Repr

instance : Inhabited Value := ⟨Value.vnone⟩

open Value

/-- Python `d.get(k)`: the value of the first (unique) binding of `k`. -/
def lookupD {α : Type} : List (String × α) → String → Option α
  | [], _ => none
  | (k', v') :: rest, k => if k' = k then some v' else lookupD rest k

/-- Python `d[k] = v`: replace the binding in place if the key is present,
otherwise append it (insertion order semantics of `dict`). -/
def insertD {α : Type} : List (String × α) → String → α → List (String × α)
  | [], k, v => [(k, v)]
  | (k', v') :: rest, k, v =>
      if k' = k then (k, v) :: rest else (k', v') :: insertD rest k v

@[simp] theorem lookupD_nil {α : Type} (k : String) :
    lookupD ([] : List (String × α)) k = none := rfl

@[simp] theorem lookupD_cons {α : Type} (k' k : String) (v' : α)
    (rest : List (String × α)) :
    lookupD ((k', v') :: rest) k =
      if k' = k then some v' else lookupD rest k := rfl

@[simp] theorem lookupD_insertD_self {α : Type} (l : List (String × α))
    (k : String) (v : α) : lookupD (insertD l k v) k = some v := by
  induction l with
  | nil => simp [insertD]
  | cons p rest ih =>
      obtain ⟨k', v'⟩ := p
      by_cases h : k' = k
      · simp [insertD, h]
      · simp [insertD, h, ih]

theorem lookupD_insertD_ne {α : Type} (l : List (String × α)) (k k' : String)
    (v : α) (h : k' ≠ k) :
    lookupD (insertD l k v) k' = lookupD l k' := by
  induction l with
  | nil => simp [insertD, Ne.symm h]
  | cons p rest ih =>
      obtain ⟨k₁, v₁⟩ := p
      by_cases hp : k₁ = k
      · subst hp
        simp [insertD, Ne.symm h]
      · simp [insertD, hp, ih]

/-- Keys of an embedded dict, in order. -/
def keysD {α : Type} (l : List (String × α)) : List String := l.map Prod.fst

@[simp] theorem keysD_nil {α : Type} : keysD ([] : List (String × α)) = [] :=
  rfl

@[simp] theorem keysD_cons {α : Type} (p : String × α)
    (rest : List (String × α)) :
    keysD (p :: rest) = p.1 :: keysD rest := rfl

/-- Embeds `d.get(k)` on a `Value` that may or may not be a dict (used on handler
results, which are always dicts). Returns `none` when the key is missing. -/
def dGet (v : Value) (k : String) : Option Value :=
  match v with
  | vdict kvs => lookupD kvs k
  | _ => none

/-- Python truthiness (`if x:`): `None`, `False`, zero, the empty string,
the empty list and the empty dict are falsy. -/
def pyTruthy : Value → Bool
  | vnone => false
  | vbool b => b
  | vint n => n ≠ 0
  | vnum q => q ≠ 0
  | vinf => true
  | vstr s => s ≠ ""
  | vlist xs => !xs.isEmpty
  | vdict kvs => !kvs.isEmpty

/-- Python `isinstance(x, int)`: true for ints and for bools (`bool` is a
subclass of `int`). -/
def pyIsInt : Value → Bool
  | vint _ => true
  | vbool _ => true
  | _ => false

/-! ## Filter translator

`SearchDispatcher._translate_filters_to_chroma` (search_dispatcher.py,
lines 905-963). The translator guards exactly two non-dict shapes: `None`
and `list`. Any other non-dict input (string, number, boolean) reaches
`filters.items()` and raises `AttributeError`. On a dict it runs two passes:
the first pass copies non-operator entries wrapped as `$eq` / `$in`
constraints and skips any value that is a dict with some `$`-prefixed key;
the second pass rewrites recognized operator entries, later recognized
operators overwriting earlier ones for the same key. -/

/-- The operator vocabulary recognized by the `if`/`elif` chain of the
second pass (lines 943-961). -/
def recognizedOps : List String :=
  ["$eq", "$ne", "$gt", "$gte", "$lt", "$lte", "$in", "$nin", "$contains"]

/-- Embeds `op.startswith(&#39;$&#39;)`: with a one-character prefix this is exactly a
first-character test. -/
def startsWithDollar (s : String) : Bool :=
  match s.data with
  | [] => false
  | c :: _ => c = '$'

/-- Embeds `isinstance(value, dict) and any(op.startswith(&#39;$&#39;) for op in value.keys())`
(line 928). -/
def isOpDict : Value → Bool
  | vdict kvs => kvs.any (fun p => startsWithDollar p.1)
  | _ => false

/-- First pass (lines 926-935), as tail recursion over the `for` loop with
the mutated `chroma_filters` dict threaded through `acc`. List values become
`$in` constraints, other values `$eq` constraints; operator dicts are
skipped. -/
def translatePass1 : List (String × Value) → List (String × Value) →
    List (String × Value)
  | [], acc => acc
  | p :: rest, acc =>
      translatePass1 rest
        (if isOpDict p.2 then acc
         else match p.2 with
           | vlist xs => insertD acc p.1 (vdict [("$in", vlist xs)])
           | v => insertD acc p.1 (vdict [("$eq", v)]))

/-- Inner loop of the second pass (lines 942-961): every recognized operator
key of `ops` rewrites the output binding for `k`; unrecognized operators are
silently dropped. -/
def applyOps (k : String) : List (String × Value) → List (String × Value) →
    List (String × Value)
  | [], acc => acc
  | q :: rest, acc =>
      applyOps k rest
        (if q.1 ∈ recognizedOps then insertD acc k (vdict [(q.1, q.2)])
         else acc)

/-- Second pass (lines 937-961): operator-based filters. Entries whose value
is not a dict are skipped (line 939). -/
def translatePass2 : List (String × Value) → List (String × Value) →
    List (String × Value)
  | [], acc => acc
  | p :: rest, acc =>
      translatePass2 rest
        (match p.2 with
         | vdict ops => applyOps p.1 ops acc
         | _ => acc)

/-- Body of `_translate_filters_to_chroma` for a dict argument. -/
def translateDict (kvs : List (String × Value)) : List (String × Value) :=
  translatePass2 kvs (translatePass1 kvs [])

/-- Embeds `_translate_filters_to_chroma` on an arbitrary argument. `None` and
lists are guarded (lines 916-921); a dict is translated; any other value
raises `AttributeError` at `filters.items()` (line 926). -/
def translate_filters_to_chroma (filters : Value) : Except String Value :=
  match filters with
  | vnone => .ok (vdict [])
  | vlist _ => .ok (vdict [])
  | vdict kvs => .ok (vdict (translateDict kvs))
  | _ => .error "AttributeError: object has no attribute items"

/-- A value of the shape the translator emits: a dict with exactly one
entry, whose key is a recognized operator. -/
def isSingleOpDict : Value → Bool
  | vdict [(op, _)] => decide (op ∈ recognizedOps)
  | _ => false

theorem startsWith_of_recognized {op : String} (h : op ∈ recognizedOps) :
    startsWithDollar op = true := by
  simp [recognizedOps] at h
  rcases h with rfl | rfl | rfl | rfl | rfl | rfl | rfl | rfl | rfl <;> decide

theorem isOpDict_of_singleOp {v : Value} (h : isSingleOpDict v = true) :
    isOpDict v = true := by
  match v with
  | vdict [(op, x)] =>
      simp [isSingleOpDict] at h
      simp [isOpDict, startsWith_of_recognized h]

theorem mem_insertD {α : Type} {l : List (String × α)} {k : String} {v : α}
    {p : String × α} (h : p ∈ insertD l k v) : p ∈ l ∨ p = (k, v) := by
  induction l with
  | nil => simp [insertD] at h; simp [h]
  | cons q rest ih =>
      obtain ⟨k₁, v₁⟩ := q
      by_cases hq : k₁ = k
      · simp [insertD, hq] at h
        rcases h with h | h
        · right; simp [h]
        · left; simp [h]
      · simp [insertD, hq] at h
        rcases h with h | h
        · left; simp [h]
        · rcases ih h with h' | h'
          · left; simp [h']
          · right; exact h'

theorem keysD_insertD (l : List (String × Value)) (k : String) (v : Value) :
    keysD (insertD l k v) =
      if k ∈ keysD l then keysD l else keysD l ++ [k] := by
  induction l with
  | nil => simp [insertD]
  | cons q rest ih =>
      obtain ⟨k₁, v₁⟩ := q
      by_cases hq : k₁ = k
      · subst hq
        simp [insertD]
      · by_cases hk : k ∈ keysD rest
        · simp [insertD, hq, ih, hk, Ne.symm hq]
        · simp [insertD, hq, ih, hk, Ne.symm hq]

theorem mem_keysD_insertD {l : List (String × Value)} {k k' : String}
    {v : Value} :
    k' ∈ keysD (insertD l k v) ↔ k' ∈ keysD l ∨ k' = k := by
  rw [keysD_insertD]
  by_cases hk : k ∈ keysD l
  · rw [if_pos hk]
    constructor
    · exact Or.inl
    · rintro (h | rfl)
      · exact h
      · exact hk
  · rw [if_neg hk]
    simp

theorem nodup_keysD_insertD {l : List (String × Value)} {k : String}
    {v : Value} (h : (keysD l).Nodup) : (keysD (insertD l k v)).Nodup := by
  rw [keysD_insertD]
  by_cases hk : k ∈ keysD l
  · rwa [if_pos hk]
  · rw [if_neg hk]
    refine h.append (List.nodup_singleton k) ?_
    intro a ha hb
    simp at hb
    subst hb
    exact hk ha

theorem insertD_of_not_mem {l : List (String × Value)} {k : String}
    {v : Value} (h : k ∉ keysD l) : insertD l k v = l ++ [(k, v)] := by
  induction l with
  | nil => simp [insertD]
  | cons q rest ih =>
      obtain ⟨k₁, v₁⟩ := q
      have h1 : ¬ k₁ = k := fun hh => h (by simp [hh])
      have h2 : k ∉ keysD rest := fun hh => h (by simp [hh])
      simp [insertD, h1, ih h2]

/-! Invariant lemmas: every binding ever emitted by the translator carries a
single-recognized-operator dict as its value, and the emitted keys are
unique. -/

theorem applyOps_values {P : Value → Prop} {k : String}
    (hP : ∀ op x, op ∈ recognizedOps → P (vdict [(op, x)])) :
    ∀ ops acc, (∀ p ∈ acc, P p.2) → ∀ p ∈ applyOps k ops acc, P p.2 := by
  intro ops
  induction ops with
  | nil => intro acc hacc; simpa [applyOps] using hacc
  | cons q rest ih =>
      intro acc hacc
      simp only [applyOps]
      apply ih
      by_cases hq : q.1 ∈ recognizedOps
      · simp only [hq, if_pos]
        intro p hp
        rcases mem_insertD hp with h | h
        · exact hacc p h
        · rw [h]; exact hP _ _ hq
      · simpa [hq] using hacc

theorem translatePass2_values {P : Value → Prop}
    (hP : ∀ op x, op ∈ recognizedOps → P (vdict [(op, x)])) :
    ∀ kvs acc, (∀ p ∈ acc, P p.2) → ∀ p ∈ translatePass2 kvs acc, P p.2 := by
  intro kvs
  induction kvs with
  | nil => intro acc hacc; simpa [translatePass2] using hacc
  | cons q rest ih =>
      intro acc hacc
      simp only [translatePass2]
      apply ih
      match hv : q.2 with
      | vdict ops => exact applyOps_values hP ops acc hacc
      | vnone => simpa using hacc
      | vbool b => simpa using hacc
      | vint n => simpa using hacc
      | vnum r => simpa using hacc
      | vinf => simpa using hacc
      | vstr s => simpa using hacc
      | vlist xs => simpa using hacc

theorem translatePass1_values {P : Value → Prop}
    (hP : ∀ op x, op ∈ recognizedOps → P (vdict [(op, x)])) :
    ∀ kvs acc, (∀ p ∈ acc, P p.2) → ∀ p ∈ translatePass1 kvs acc, P p.2 := by
  intro kvs
  induction kvs with
  | nil => intro acc hacc; simpa [translatePass1] using hacc
  | cons q rest ih =>
      intro acc hacc
      simp only [translatePass1]
      apply ih
      by_cases hop : isOpDict q.2
      · simpa [hop] using hacc
      · simp only [hop, Bool.false_eq_true, if_false]
        match hv : q.2 with
        | vlist xs =>
            intro p hp
            rcases mem_insertD hp with h | h
            · exact hacc p h
            · rw [h]; exact hP "$in" (vlist xs) (by simp [recognizedOps])
        | vnone =>
            intro p hp
            rcases mem_insertD hp with h | h
            · exact hacc p h
            · rw [h]; exact hP "$eq" vnone (by simp [recognizedOps])
        | vbool b =>
            intro p hp
            rcases mem_insertD hp with h | h
            · exact hacc p h
            · rw [h]; exact hP "$eq" _ (by simp [recognizedOps])
        | vint n =>
            intro p hp
            rcases mem_insertD hp with h | h
            · exact hacc p h
            · rw [h]; exact hP "$eq" _ (by simp [recognizedOps])
        | vnum r =>
            intro p hp
            rcases mem_insertD hp with h | h
            · exact hacc p h
            · rw [h]; exact hP "$eq" _ (by simp [recognizedOps])
        | vinf =>
            intro p hp
            rcases mem_insertD hp with h | h
            · exact hacc p h
            · rw [h]; exact hP "$eq" _ (by simp [recognizedOps])
        | vstr s =>
            intro p hp
            rcases mem_insertD hp with h | h
            · exact hacc p h
            · rw [h]; exact hP "$eq" _ (by simp [recognizedOps])
        | vdict ds =>
            intro p hp
            rcases mem_insertD hp with h | h
            · exact hacc p h
            · rw [h]; exact hP "$eq" _ (by simp [recognizedOps])

theorem translateDict_values {kvs : List (String × Value)} :
    ∀ p ∈ translateDict kvs, isSingleOpDict p.2 = true := by
  have hP : ∀ (op : String) (x : Value), op ∈ recognizedOps →
      isSingleOpDict (vdict [(op, x)]) = true := by
    intro op x h; simp [isSingleOpDict, h]
  exact translatePass2_values (P := fun v => isSingleOpDict v = true) hP kvs _
    (translatePass1_values (P := fun v => isSingleOpDict v = true) hP kvs []
      (by simp))

theorem applyOps_nodup {k : String} :
    ∀ ops acc, (keysD acc).Nodup → (keysD (applyOps k ops acc)).Nodup := by
  intro ops
  induction ops with
  | nil => intro acc h; simpa [applyOps] using h
  | cons q rest ih =>
      intro acc h
      simp only [applyOps]
      apply ih
      by_cases hq : q.1 ∈ recognizedOps
      · simp only [hq, if_pos]
        exact nodup_keysD_insertD h
      · simpa [hq] using h

theorem translatePass2_nodup :
    ∀ kvs acc, (keysD acc).Nodup → (keysD (translatePass2 kvs acc)).Nodup := by
  intro kvs
  induction kvs with
  | nil => intro acc h; simpa [translatePass2] using h
  | cons q rest ih =>
      intro acc h
      simp only [translatePass2]
      apply ih
      match q.2 with
      | vdict ops => exact applyOps_nodup ops acc h
      | vnone => simpa using h
      | vbool _ => simpa using h
      | vint _ => simpa using h
      | vnum _ => simpa using h
      | vinf => simpa using h
      | vstr _ => simpa using h
      | vlist _ => simpa using h

theorem translatePass1_nodup :
    ∀ kvs acc, (keysD acc).Nodup → (keysD (translatePass1 kvs acc)).Nodup := by
  intro kvs
  induction kvs with
  | nil => intro acc h; simpa [translatePass1] using h
  | cons q rest ih =>
      intro acc h
      simp only [translatePass1]
      apply ih
      by_cases hop : isOpDict q.2
      · simpa [hop] using h
      · simp only [hop, Bool.false_eq_true, if_false]
        match q.2 with
        | vlist _ => exact nodup_keysD_insertD h
        | vnone => exact nodup_keysD_insertD h
        | vbool _ => exact nodup_keysD_insertD h
        | vint _ => exact nodup_keysD_insertD h
        | vnum _ => exact nodup_keysD_insertD h
        | vinf => exact nodup_keysD_insertD h
        | vstr _ => exact nodup_keysD_insertD h
        | vdict _ => exact nodup_keysD_insertD h

theorem translateDict_nodup {kvs : List (String × Value)} :
    (keysD (translateDict kvs)).Nodup :=
  translatePass2_nodup kvs _ (translatePass1_nodup kvs [] (by simp [keysD]))

/-! Fixpoint: on a dict whose keys are unique and whose values are all
single-recognized-operator dicts, the translator is the identity. -/

theorem translatePass1_skips {kvs : List (String × Value)}
    (h : ∀ p ∈ kvs, isSingleOpDict p.2 = true) :
    ∀ acc, translatePass1 kvs acc = acc := by
  induction kvs with
  | nil => intro acc; rfl
  | cons q rest ih =>
      intro acc
      have hq : isOpDict q.2 = true :=
        isOpDict_of_singleOp (h q (by simp))
      simp only [translatePass1, hq, if_pos]
      exact ih (fun p hp => h p (by simp [hp])) acc

theorem applyOps_singleton {k op : String} {x : Value}
    (h : op ∈ recognizedOps) (acc : List (String × Value)) :
    applyOps k [(op, x)] acc = insertD acc k (vdict [(op, x)]) := by
  simp [applyOps, h]

theorem translatePass2_inserts {kvs : List (String × Value)}
    (h : ∀ p ∈ kvs, isSingleOpDict p.2 = true) :
    ∀ acc, translatePass2 kvs acc =
      kvs.foldl (fun acc p => insertD acc p.1 p.2) acc := by
  induction kvs with
  | nil => intro acc; rfl
  | cons q rest ih =>
      intro acc
      have hq := h q (by simp)
      obtain ⟨k, v⟩ := q
      match v, hq with
      | vdict [(op, x)], hq =>
          have hop : op ∈ recognizedOps := by
            simpa [isSingleOpDict] using hq
          simp only [translatePass2, List.foldl_cons]
          rw [applyOps_singleton hop]
          exact ih (fun p hp => h p (by simp [hp])) _

theorem foldl_insertD_eq_append {kvs : List (String × Value)}
    (hnd : (keysD kvs).Nodup) :
    ∀ acc, (∀ k ∈ keysD kvs, k ∉ keysD acc) →
      kvs.foldl (fun acc p => insertD acc p.1 p.2) acc = acc ++ kvs := by
  induction kvs with
  | nil => intro acc _; simp
  | cons q rest ih =>
      intro acc hdisj
      obtain ⟨k, v⟩ := q
      simp only [List.foldl_cons]
      rw [insertD_of_not_mem (hdisj k (by simp))]
      rw [ih (by simpa using hnd.of_cons) (acc ++ [(k, v)]) ?_]
      · simp
      · intro k' hk' hmem
        simp [keysD, List.map_append] at hmem
        rcases hmem with hmem | hmem
        · exact hdisj k' (by simp [hk']) (by simpa [keysD] using hmem)
        · have : k ∉ keysD rest := by
            simpa using (List.nodup_cons.mp (by simpa using hnd)).1
          rw [hmem] at hk'
          exact this hk'

theorem translateDict_fixpoint {kvs : List (String × Value)}
    (hnd : (keysD kvs).Nodup)
    (hv : ∀ p ∈ kvs, isSingleOpDict p.2 = true) :
    translateDict kvs = kvs := by
  unfold translateDict
  rw [translatePass1_skips hv, translatePass2_inserts hv]
  simpa using foldl_insertD_eq_append hnd [] (by simp)

theorem translateDict_idem (kvs : List (String × Value)) :
    translateDict (translateDict kvs) = translateDict kvs :=
  translateDict_fixpoint translateDict_nodup translateDict_values

/-! Key presence: an input entry whose value carries at least one recognized
operator contributes a binding for its key to the output. -/

theorem mem_keysD_applyOps_mono {k k' : String}
    {ops : List (String × Value)} {acc : List (String × Value)}
    (h : k' ∈ keysD acc) : k' ∈ keysD (applyOps k ops acc) := by
  induction ops generalizing acc with
  | nil => simpa [applyOps] using h
  | cons q rest ih =>
      simp only [applyOps]
      apply ih
      by_cases hq : q.1 ∈ recognizedOps
      · simp only [hq, if_pos]
        exact mem_keysD_insertD.mpr (Or.inl h)
      · simpa [hq] using h

theorem mem_keysD_applyOps {k : String} {ops : List (String × Value)}
    (hop : ∃ q ∈ ops, q.1 ∈ recognizedOps) :
    ∀ acc, k ∈ keysD (applyOps k ops acc) := by
  induction ops with
  | nil => simp at hop
  | cons q rest ih =>
      intro acc
      rcases hop with ⟨q', hq', hrec⟩
      rcases List.mem_cons.mp hq' with rfl | hq'
      · simp only [applyOps, hrec, if_pos]
        exact mem_keysD_applyOps_mono (mem_keysD_insertD.mpr (Or.inr rfl))
      · exact ih ⟨q', hq', hrec⟩ _

theorem mem_keysD_translatePass2_mono {k' : String} :
    ∀ (kvs acc : List (String × Value)), k' ∈ keysD acc →
      k' ∈ keysD (translatePass2 kvs acc) := by
  intro kvs
  induction kvs with
  | nil => intro acc h; simpa [translatePass2] using h
  | cons q rest ih =>
      intro acc h
      simp only [translatePass2]
      apply ih
      match q.2 with
      | vdict ops => exact mem_keysD_applyOps_mono h
      | vnone => simpa using h
      | vbool _ => simpa using h
      | vint _ => simpa using h
      | vnum _ => simpa using h
      | vinf => simpa using h
      | vstr _ => simpa using h
      | vlist _ => simpa using h

theorem mem_keysD_translatePass2 {k : String} {ops : List (String × Value)} :
    ∀ (kvs acc : List (String × Value)), (k, vdict ops) ∈ kvs →
      (∃ q ∈ ops, q.1 ∈ recognizedOps) →
      k ∈ keysD (translatePass2 kvs acc) := by
  intro kvs
  induction kvs with
  | nil => intro acc h _; simp at h
  | cons q rest ih =>
      intro acc hmem hop
      rcases List.mem_cons.mp hmem with rfl | hmem
      · simp only [translatePass2]
        exact mem_keysD_translatePass2_mono rest _ (mem_keysD_applyOps hop _)
      · simp only [translatePass2]
        exact ih _ hmem hop

theorem lookupD_isSome_of_mem_keysD {l : List (String × Value)} {k : String}
    (h : k ∈ keysD l) : ∃ v, lookupD l k = some v := by
  induction l with
  | nil => simp at h
  | cons q rest ih =>
      obtain ⟨k₁, v₁⟩ := q
      by_cases hq : k₁ = k
      · exact ⟨v₁, by simp [hq]⟩
      · have h' : k ∈ keysD rest := by
          rcases List.mem_cons.mp (by simpa using h) with h'' | h''
          · exact absurd h''.symm hq
          · exact h''
        rcases ih h' with ⟨v, hv⟩
        exact ⟨v, by simp [hq, hv]⟩

theorem mem_of_lookupD {l : List (String × Value)} {k : String} {v : Value}
    (h : lookupD l k = some v) : (k, v) ∈ l := by
  induction l with
  | nil => simp [lookupD] at h
  | cons q rest ih =>
      obtain ⟨k₁, v₁⟩ := q
      by_cases hq : k₁ = k
      · subst hq
        simp [lookupD] at h
        simp [h]
      · simp [lookupD, hq] at h
        simp [ih h]

/-! ## Query parser

`QueryParser` (query_parser.py). The LangChain tier is an optional external
collaborator; per the degraded rule-based mode (`use_langchain = False`, or
any LangChain failure) classification and extraction run the rule-based
code, which is what is embedded here.

The regular-expression pattern tables and the spaCy NLP calls are
collaborators: a `PatternEnv` supplies, for each fixed pattern (set), the
result of applying it to a given string.  The `limit` pattern
`(limit|top|first)\s+(\d+)` is additionally implemented concretely
(`limitSearch`) because claims about the type of the extracted limit depend
on its capture group being a digit run. -/

/-- The `QueryIntent` enum (query_parser.py lines 13-19). -/
inductive QueryIntent where
  | RETRIEVAL
  | COMPARISON
  | NOTEBOOK
  | IMAGE_SEARCH
  | METADATA
  | UNKNOWN
  deriving Repr, DecidableEq

/-- Embeds `intent.value`. -/
def QueryIntent.value : QueryIntent → String
  | .RETRIEVAL => "retrieval"
  | .COMPARISON => "comparison"
  | .NOTEBOOK => "notebook"
  | .IMAGE_SEARCH => "image_search"
  | .METADATA => "metadata"
  | .UNKNOWN => "unknown"

/-- Embeds `QueryIntent(s)`: enum lookup by value, `none` embeds the `ValueError`. -/
def queryIntentOfString (s : String) : Option QueryIntent :=
  if s = "retrieval" then some .RETRIEVAL
  else if s = "comparison" then some .COMPARISON
  else if s = "notebook" then some .NOTEBOOK
  else if s = "image_search" then some .IMAGE_SEARCH
  else if s = "metadata" then some .METADATA
  else if s = "unknown" then some .UNKNOWN
  else none

/-- Python `s.lower()` (ASCII letters; the embedded pattern tables and
queries are ASCII). -/
def pyLower (s : String) : String := ⟨s.data.map Char.toLower⟩

/-- Match a literal keyword at the head of the character list, returning the
remainder. -/
def stripKeyword : List Char → List Char → Option (List Char)
  | [], cs => some cs
  | _ :: _, [] => none
  | k :: ks, c :: cs => if c = k then stripKeyword ks cs else none

/-- Decimal value of a digit run (`int` applied to the capture of `\d+`). -/
def digitsToNat (acc : Nat) : List Char → Nat
  | [] => acc
  | c :: cs => digitsToNat (acc * 10 + (c.toNat - 48)) cs

/-- After one of the keywords: `\s+` (at least one whitespace) then `\d+`
(at least one digit, taken greedily). -/
def matchAfterKeyword (cs : List Char) : Option Nat :=
  let ws := cs.takeWhile (fun c => c.isWhitespace)
  if ws.isEmpty then none
  else
    let rest := cs.dropWhile (fun c => c.isWhitespace)
    let ds := rest.takeWhile (fun c => c.isDigit)
    if ds.isEmpty then none else some (digitsToNat 0 ds)

/-- Try the alternation `(limit|top|first)` at one position, with
backtracking from a failed suffix to the next alternative. -/
def matchLimitAt (cs : List Char) : Option Nat :=
  (((stripKeyword "limit".data cs).bind matchAfterKeyword).orElse fun _ =>
    ((stripKeyword "top".data cs).bind matchAfterKeyword)).orElse fun _ =>
    ((stripKeyword "first".data cs).bind matchAfterKeyword)

/-- Leftmost-match scan of `re.search`. -/
def limitScan : List Char → Option Nat
  | [] => none
  | c :: cs =>
      match matchLimitAt (c :: cs) with
      | some n => some n
      | none => limitScan cs

/-- Embeds `re.search(self.limit_pattern, s)` followed by `int(match.group(2))`
(query_parser.py lines 168, 433-435): the first `(limit|top|first)\s+(\d+)`
occurrence, its digit capture read as a number. -/
def limitSearch (s : String) : Option Nat := limitScan s.data

/-- Results of the collaborator pattern/NLP machinery on a given string.
Each field stands for one fixed pattern (set) of `_init_patterns` or one
spaCy query, applied to the string the source applies it to:
* `*Pat` fields: `any(re.search(p, s) for p in intent_patterns[i])`;
* `explicitModelIds`: all `model_id_pattern` captures (group 2);
* `namedEntities`: spaCy `ORG`/`PRODUCT` entity texts;
* `familyMentions`: all model-family keyword matches (group 0);
* `verbs`/`nouns`: spaCy verb and noun lemmas;
* `metricMatches`: all `metric_pattern` captures;
* `archFilter`/`frameworkFilter`/`paramsFilter`/`dateFilter`: the capture
  groups of the last match of each `filter_patterns` entry, if any
  (the `finditer` loop overwrites the same key on every match);
* `sortMatch`: groups 3 and 4 of the first `sort_pattern` match;
* `comparisonDims`/`analysisTypes`: the cleaned comma/and split of the
  match, `[]` when the pattern does not match or every piece is blank;
* `datasetMatch`/`resourcesMatch`/`promptMatch`: the stripped capture;
* `styleTags`: the cleaned split whenever the style pattern matches;
* `resolutionMatch`: the two digit captures of the resolution pattern;
* `visualizePat`: the visualization verb pattern. -/
structure PatternEnv where
  retrievalPat : String → Bool
  comparisonPat : String → Bool
  notebookPat : String → Bool
  imagePat : String → Bool
  metadataPat : String → Bool
  explicitModelIds : String → List String
  namedEntities : String → List String
  familyMentions : String → List String
  verbs : String → List String
  nouns : String → List String
  metricMatches : String → List String
  archFilter : String → Option String
  frameworkFilter : String → Option String
  paramsFilter : String → Option (String × String)
  dateFilter : String → Option (String × String × String)
  sortMatch : String → Option (String × Option String)
  comparisonDims : String → List String
  visualizePat : String → Bool
  analysisTypes : String → List String
  datasetMatch : String → Option String
  resourcesMatch : String → Option String
  promptMatch : String → Option String
  styleTags : String → Option (List String)
  resolutionMatch : String → Option (Nat × Nat)

/-- Embeds `QueryParser._extract_model_mentions` (lines 455-484): explicit
`model id` captures and family keywords are matched on the lowercased text,
named entities on the text as given; `list(set(...))` deduplicates (the
embedding fixes first-occurrence order; no claim depends on the order). -/
def extract_model_mentions (env : PatternEnv) (text : String) : List String :=
  (env.explicitModelIds (pyLower text) ++ env.namedEntities text ++
    env.familyMentions (pyLower text)).dedup

/-- Embeds `QueryParser._nlp_based_intent_classification` (lines 310-353). -/
def nlp_based_intent_classification (env : PatternEnv) (text : String) :
    QueryIntent :=
  let verbs := env.verbs text
  let nouns := env.nouns text
  if verbs.any (fun v =>
        v ∈ ["compare", "contrast", "differ", "distinguish", "evaluate"]) ∧
      1 < nouns.dedup.length then
    .COMPARISON
  else if nouns.any (fun n =>
        n ∈ ["notebook", "colab", "code", "script", "analysis"]) then
    .NOTEBOOK
  else if nouns.any (fun n =>
        n ∈ ["image", "picture", "photo", "visualization", "render",
             "sample"]) then
    .IMAGE_SEARCH
  else if nouns.any (fun n =>
        n ∈ ["metadata", "schema", "field", "property", "attribute",
             "structure"]) then
    .METADATA
  else if nouns.any (fun n =>
        n ∈ ["model", "transformer", "neural", "network", "ai",
             "architecture"]) then
    .RETRIEVAL
  else
    .UNKNOWN

/-- Embeds `QueryParser.classify_intent`, rule-based tier (lines 283-308; the
LangChain tier is unavailable). Comparison is checked first, on two or more
distinct model mentions plus a comparison pattern; then the fixed priority
order notebook, image search, metadata; then the permissive retrieval
default; the NLP heuristic tier last. -/
def classify_intent (env : PatternEnv) (text : String) : QueryIntent :=
  let query_lower := pyLower text
  let model_mentions := extract_model_mentions env query_lower
  if 1 < model_mentions.length ∧ env.comparisonPat query_lower then
    .COMPARISON
  else if env.notebookPat query_lower then .NOTEBOOK
  else if env.imagePat query_lower then .IMAGE_SEARCH
  else if env.metadataPat query_lower then .METADATA
  else if env.retrievalPat query_lower ∨ 0 < model_mentions.length then
    .RETRIEVAL
  else nlp_based_intent_classification env text

/-- Insert a binding only when the optional value is present (the shape of
every `if match: parameters[k] = ...` site). -/
def maybeInsert (b : List (String × Value)) (k : String) :
    Option Value → List (String × Value)
  | none => b
  | some v => insertD b k v

/-- The `filters` sub-dict of rule-based extraction (lines 410-428), built
over the lowercased text in the fixed iteration order of
`filter_patterns`. -/
def buildFilters (env : PatternEnv) (tl : String) : List (String × Value) :=
  let f1 := maybeInsert [] "architecture" ((env.archFilter tl).map vstr)
  let f2 := maybeInsert f1 "framework" ((env.frameworkFilter tl).map vstr)
  let f3 := maybeInsert f2 "params"
    ((env.paramsFilter tl).map fun p =>
      vdict [("operator", vstr p.1), ("value", vstr p.2)])
  maybeInsert f3 "date"
    ((env.dateFilter tl).map fun p =>
      vdict [("field", vstr p.1), ("operator", vstr p.2.1),
             ("value", vstr p.2.2)])

/-- Embeds `QueryParser._extract_comparison_parameters` (lines 486-514), threaded
through the caller's bag (`params.update` on the fresh keys of the returned
dict is insertion of those keys in the same order). -/
def extract_comparison_parameters (env : PatternEnv) (text : String)
    (b : List (String × Value)) : List (String × Value) :=
  let tl := pyLower text
  let dims := env.comparisonDims tl
  let b1 := if dims.isEmpty then b
    else insertD b "comparison_dimensions" (vlist (dims.map vstr))
  if env.visualizePat tl then insertD b1 "visualize" (vbool true) else b1

/-- Embeds `QueryParser._extract_notebook_parameters` (lines 516-552). -/
def extract_notebook_parameters (env : PatternEnv) (text : String)
    (b : List (String × Value)) : List (String × Value) :=
  let tl := pyLower text
  let ts := env.analysisTypes tl
  let b1 := if ts.isEmpty then b
    else insertD b "analysis_types" (vlist (ts.map vstr))
  let b2 := maybeInsert b1 "dataset" ((env.datasetMatch tl).map vstr)
  maybeInsert b2 "resources" ((env.resourcesMatch tl).map vstr)

/-- Embeds `QueryParser._extract_image_parameters` (lines 554-589). -/
def extract_image_parameters (env : PatternEnv) (text : String)
    (b : List (String × Value)) : List (String × Value) :=
  let tl := pyLower text
  let b1 := maybeInsert b "prompt_terms" ((env.promptMatch tl).map vstr)
  let b2 := maybeInsert b1 "style_tags"
    ((env.styleTags tl).map fun tags => vlist (tags.map vstr))
  maybeInsert b2 "resolution"
    ((env.resolutionMatch tl).map fun p =>
      vdict [("width", vint p.1), ("height", vint p.2)])

/-- The intent-independent part of rule-based extraction (lines 397-443):
`model_ids` is assigned unconditionally (line 401); `metrics`, `filters`,
`limit` and `sort_by` are each guarded by their match. -/
def rule_based_parameters (env : PatternEnv) (text : String) :
    List (String × Value) :=
  let tl := pyLower text
  let p0 := insertD [] "model_ids"
    (vlist ((extract_model_mentions env text).map vstr))
  let ms := env.metricMatches tl
  let p1 := if ms.isEmpty then p0
    else insertD p0 "metrics" (vlist (ms.map vstr))
  let filters := buildFilters env tl
  let p2 := if filters.isEmpty then p1 else insertD p1 "filters" (vdict filters)
  let p3 := maybeInsert p2 "limit" ((limitSearch tl).map fun n => vint n)
  maybeInsert p3 "sort_by"
    ((env.sortMatch tl).map fun p =>
      vdict [("field", vstr p.1), ("order", vstr (p.2.getD "descending"))])

/-- Embeds `QueryParser.extract_parameters`, rule-based path (lines 397-453; the
LangChain tier is unavailable): the common bag, then the intent-specific
update. -/
def extract_parameters (env : PatternEnv) (text : String)
    (intent : QueryIntent) : List (String × Value) :=
  match intent with
  | .COMPARISON =>
      extract_comparison_parameters env text (rule_based_parameters env text)
  | .NOTEBOOK =>
      extract_notebook_parameters env text (rule_based_parameters env text)
  | .IMAGE_SEARCH =>
      extract_image_parameters env text (rule_based_parameters env text)
  | _ => rule_based_parameters env text

/-! ### Lookup laws of the extracted parameter bag -/

theorem lookupD_maybeInsert_ne {b : List (String × Value)} {k k' : String}
    {ov : Option Value} (h : k' ≠ k) :
    lookupD (maybeInsert b k ov) k' = lookupD b k' := by
  cases ov <;> simp [maybeInsert, lookupD_insertD_ne _ _ _ _ h]

theorem lookupD_maybeInsert_self {b : List (String × Value)} {k : String}
    {ov : Option Value} (hb : lookupD b k = none) :
    lookupD (maybeInsert b k ov) k = ov := by
  cases ov <;> simp [maybeInsert, hb]

theorem lookupD_comparison_extra (env : PatternEnv) (text : String)
    (b : List (String × Value)) (k : String)
    (h1 : k ≠ "comparison_dimensions") (h2 : k ≠ "visualize") :
    lookupD (extract_comparison_parameters env text b) k = lookupD b k := by
  unfold extract_comparison_parameters
  dsimp only
  split_ifs <;>
    simp [lookupD_insertD_ne _ _ _ _ h1, lookupD_insertD_ne _ _ _ _ h2]

theorem lookupD_notebook_extra (env : PatternEnv) (text : String)
    (b : List (String × Value)) (k : String)
    (h1 : k ≠ "analysis_types") (h2 : k ≠ "dataset")
    (h3 : k ≠ "resources") :
    lookupD (extract_notebook_parameters env text b) k = lookupD b k := by
  unfold extract_notebook_parameters
  dsimp only
  rw [lookupD_maybeInsert_ne h3, lookupD_maybeInsert_ne h2]
  split_ifs <;> simp [lookupD_insertD_ne _ _ _ _ h1]

theorem lookupD_image_extra (env : PatternEnv) (text : String)
    (b : List (String × Value)) (k : String)
    (h1 : k ≠ "prompt_terms") (h2 : k ≠ "style_tags")
    (h3 : k ≠ "resolution") :
    lookupD (extract_image_parameters env text b) k = lookupD b k := by
  unfold extract_image_parameters
  dsimp only
  rw [lookupD_maybeInsert_ne h3, lookupD_maybeInsert_ne h2,
    lookupD_maybeInsert_ne h1]

theorem lookupD_rule_base_model_ids (env : PatternEnv) (text : String) :
    lookupD (rule_based_parameters env text) "model_ids" =
      some (vlist ((extract_model_mentions env text).map vstr)) := by
  unfold rule_based_parameters
  dsimp only
  rw [lookupD_maybeInsert_ne (by decide), lookupD_maybeInsert_ne (by decide)]
  split_ifs <;> simp [lookupD_insertD_ne]

theorem lookupD_rule_base_metrics (env : PatternEnv) (text : String) :
    lookupD (rule_based_parameters env text) "metrics" =
      (if (env.metricMatches (pyLower text)).isEmpty then none
       else some (vlist ((env.metricMatches (pyLower text)).map vstr))) := by
  unfold rule_based_parameters
  dsimp only
  rw [lookupD_maybeInsert_ne (by decide), lookupD_maybeInsert_ne (by decide)]
  split_ifs <;> simp_all [lookupD_insertD_ne]

theorem lookupD_rule_base_filters (env : PatternEnv) (text : String) :
    lookupD (rule_based_parameters env text) "filters" =
      (if (buildFilters env (pyLower text)).isEmpty then none
       else some (vdict (buildFilters env (pyLower text)))) := by
  unfold rule_based_parameters
  dsimp only
  rw [lookupD_maybeInsert_ne (by decide), lookupD_maybeInsert_ne (by decide)]
  split_ifs <;> simp_all [lookupD_insertD_ne]

theorem lookupD_rule_base_limit (env : PatternEnv) (text : String) :
    lookupD (rule_based_parameters env text) "limit" =
      (limitSearch (pyLower text)).map fun n => vint n := by
  unfold rule_based_parameters
  dsimp only
  rw [lookupD_maybeInsert_ne (by decide)]
  rw [lookupD_maybeInsert_self ?hnone]
  case hnone => split_ifs <;> simp [lookupD_insertD_ne]

theorem lookupD_rule_base_sort_by (env : PatternEnv) (text : String) :
    lookupD (rule_based_parameters env text) "sort_by" =
      (env.sortMatch (pyLower text)).map fun p =>
        vdict [("field", vstr p.1),
               ("order", vstr (p.2.getD "descending"))] := by
  unfold rule_based_parameters
  dsimp only
  rw [lookupD_maybeInsert_self ?hnone]
  case hnone =>
    rw [lookupD_maybeInsert_ne (by decide)]
    split_ifs <;> simp [lookupD_insertD_ne]

theorem lookupD_rule_base_other (env : PatternEnv) (text : String)
    (k : String) (h1 : k ≠ "model_ids") (h2 : k ≠ "metrics")
    (h3 : k ≠ "filters") (h4 : k ≠ "limit") (h5 : k ≠ "sort_by") :
    lookupD (rule_based_parameters env text) k = none := by
  unfold rule_based_parameters
  dsimp only
  rw [lookupD_maybeInsert_ne h5, lookupD_maybeInsert_ne h4]
  split_ifs <;>
    simp [lookupD_insertD_ne _ _ _ _ h1, lookupD_insertD_ne _ _ _ _ h2,
      lookupD_insertD_ne _ _ _ _ h3]

theorem lookupD_extract_model_ids (env : PatternEnv) (text : String)
    (intent : QueryIntent) :
    lookupD (extract_parameters env text intent) "model_ids" =
      some (vlist ((extract_model_mentions env text).map vstr)) := by
  cases intent <;>
    simp only [extract_parameters] <;>
    (try rw [lookupD_comparison_extra _ _ _ _ (by decide) (by decide)]) <;>
    (try rw [lookupD_notebook_extra _ _ _ _ (by decide) (by decide)
      (by decide)]) <;>
    (try rw [lookupD_image_extra _ _ _ _ (by decide) (by decide)
      (by decide)]) <;>
    exact lookupD_rule_base_model_ids env text

theorem lookupD_extract_metrics (env : PatternEnv) (text : String)
    (intent : QueryIntent) :
    lookupD (extract_parameters env text intent) "metrics" =
      (if (env.metricMatches (pyLower text)).isEmpty then none
       else some (vlist ((env.metricMatches (pyLower text)).map vstr))) := by
  cases intent <;>
    simp only [extract_parameters] <;>
    (try rw [lookupD_comparison_extra _ _ _ _ (by decide) (by decide)]) <;>
    (try rw [lookupD_notebook_extra _ _ _ _ (by decide) (by decide)
      (by decide)]) <;>
    (try rw [lookupD_image_extra _ _ _ _ (by decide) (by decide)
      (by decide)]) <;>
    exact lookupD_rule_base_metrics env text

theorem lookupD_extract_filters (env : PatternEnv) (text : String)
    (intent : QueryIntent) :
    lookupD (extract_parameters env text intent) "filters" =
      (if (buildFilters env (pyLower text)).isEmpty then none
       else some (vdict (buildFilters env (pyLower text)))) := by
  cases intent <;>
    simp only [extract_parameters] <;>
    (try rw [lookupD_comparison_extra _ _ _ _ (by decide) (by decide)]) <;>
    (try rw [lookupD_notebook_extra _ _ _ _ (by decide) (by decide)
      (by decide)]) <;>
    (try rw [lookupD_image_extra _ _ _ _ (by decide) (by decide)
      (by decide)]) <;>
    exact lookupD_rule_base_filters env text

theorem lookupD_extract_limit (env : PatternEnv) (text : String)
    (intent : QueryIntent) :
    lookupD (extract_parameters env text intent) "limit" =
      (limitSearch (pyLower text)).map fun n => vint n := by
  cases intent <;>
    simp only [extract_parameters] <;>
    (try rw [lookupD_comparison_extra _ _ _ _ (by decide) (by decide)]) <;>
    (try rw [lookupD_notebook_extra _ _ _ _ (by decide) (by decide)
      (by decide)]) <;>
    (try rw [lookupD_image_extra _ _ _ _ (by decide) (by decide)
      (by decide)]) <;>
    exact lookupD_rule_base_limit env text

theorem lookupD_extract_sort_by (env : PatternEnv) (text : String)
    (intent : QueryIntent) :
    lookupD (extract_parameters env text intent) "sort_by" =
      (env.sortMatch (pyLower text)).map fun p =>
        vdict [("field", vstr p.1),
               ("order", vstr (p.2.getD "descending"))] := by
  cases intent <;>
    simp only [extract_parameters] <;>
    (try rw [lookupD_comparison_extra _ _ _ _ (by decide) (by decide)]) <;>
    (try rw [lookupD_notebook_extra _ _ _ _ (by decide) (by decide)
      (by decide)]) <;>
    (try rw [lookupD_image_extra _ _ _ _ (by decide) (by decide)
      (by decide)]) <;>
    exact lookupD_rule_base_sort_by env text

theorem lookupD_extract_comparison_dims (env : PatternEnv) (text : String)
    (intent : QueryIntent) :
    lookupD (extract_parameters env text intent) "comparison_dimensions" =
      (if intent = QueryIntent.COMPARISON ∧
          (env.comparisonDims (pyLower text)).isEmpty = false
       then some (vlist ((env.comparisonDims (pyLower text)).map vstr))
       else none) := by
  cases intent <;> simp only [extract_parameters] <;>
    [skip;
     (unfold extract_comparison_parameters
      dsimp only
      split_ifs <;>
        simp_all [lookupD_insertD_ne,
          lookupD_rule_base_other env text "comparison_dimensions" (by decide) (by decide)
            (by decide) (by decide) (by decide)]);
     (rw [lookupD_notebook_extra _ _ _ _ (by decide) (by decide) (by decide)];
      skip);
     (rw [lookupD_image_extra _ _ _ _ (by decide) (by decide) (by decide)];
      skip);
     skip; skip] <;>
    simp [lookupD_rule_base_other env text "comparison_dimensions" (by decide) (by decide)
      (by decide) (by decide) (by decide)]

theorem lookupD_extract_visualize (env : PatternEnv) (text : String)
    (intent : QueryIntent) :
    lookupD (extract_parameters env text intent) "visualize" =
      (if intent = QueryIntent.COMPARISON ∧
          env.visualizePat (pyLower text) = true
       then some (vbool true) else none) := by
  cases intent <;> simp only [extract_parameters] <;>
    [skip;
     (unfold extract_comparison_parameters
      dsimp only
      split_ifs <;>
        simp_all [lookupD_insertD_ne,
          lookupD_rule_base_other env text "visualize" (by decide) (by decide)
            (by decide) (by decide) (by decide)]);
     (rw [lookupD_notebook_extra _ _ _ _ (by decide) (by decide) (by decide)];
      skip);
     (rw [lookupD_image_extra _ _ _ _ (by decide) (by decide) (by decide)];
      skip);
     skip; skip] <;>
    simp [lookupD_rule_base_other env text "visualize" (by decide) (by decide)
      (by decide) (by decide) (by decide)]

theorem lookupD_extract_analysis_types (env : PatternEnv) (text : String)
    (intent : QueryIntent) :
    lookupD (extract_parameters env text intent) "analysis_types" =
      (if intent = QueryIntent.NOTEBOOK ∧
          (env.analysisTypes (pyLower text)).isEmpty = false
       then some (vlist ((env.analysisTypes (pyLower text)).map vstr))
       else none) := by
  cases intent <;> simp only [extract_parameters] <;>
    [skip;
     (rw [lookupD_comparison_extra _ _ _ _ (by decide) (by decide)]; skip);
     (unfold extract_notebook_parameters
      dsimp only
      rw [lookupD_maybeInsert_ne (by decide), lookupD_maybeInsert_ne
        (by decide)]
      split_ifs <;>
        simp_all [lookupD_insertD_ne,
          lookupD_rule_base_other env text "analysis_types" (by decide) (by decide)
            (by decide) (by decide) (by decide)]);
     (rw [lookupD_image_extra _ _ _ _ (by decide) (by decide) (by decide)];
      skip);
     skip; skip] <;>
    simp [lookupD_rule_base_other env text "analysis_types" (by decide) (by decide)
      (by decide) (by decide) (by decide)]

theorem lookupD_extract_dataset (env : PatternEnv) (text : String)
    (intent : QueryIntent) :
    lookupD (extract_parameters env text intent) "dataset" =
      (if intent = QueryIntent.NOTEBOOK
       then (env.datasetMatch (pyLower text)).map vstr else none) := by
  cases intent <;> simp only [extract_parameters] <;>
    [skip;
     (rw [lookupD_comparison_extra _ _ _ _ (by decide) (by decide)]; skip);
     (unfold extract_notebook_parameters
      dsimp only
      rw [lookupD_maybeInsert_ne (by decide)]
      rw [lookupD_maybeInsert_self ?hds]
      case hds =>
        split_ifs <;>
          simp [lookupD_insertD_ne,
            lookupD_rule_base_other env text "dataset" (by decide) (by decide)
              (by decide) (by decide) (by decide)]
      simp);
     (rw [lookupD_image_extra _ _ _ _ (by decide) (by decide) (by decide)];
      skip);
     skip; skip] <;>
    simp [lookupD_rule_base_other env text "dataset" (by decide) (by decide)
      (by decide) (by decide) (by decide)]

theorem lookupD_extract_resources (env : PatternEnv) (text : String)
    (intent : QueryIntent) :
    lookupD (extract_parameters env text intent) "resources" =
      (if intent = QueryIntent.NOTEBOOK
       then (env.resourcesMatch (pyLower text)).map vstr else none) := by
  cases intent <;> simp only [extract_parameters] <;>
    [skip;
     (rw [lookupD_comparison_extra _ _ _ _ (by decide) (by decide)]; skip);
     (unfold extract_notebook_parameters
      dsimp only
      rw [lookupD_maybeInsert_self ?hrs]
      case hrs =>
        rw [lookupD_maybeInsert_ne (by decide)]
        split_ifs <;>
          simp [lookupD_insertD_ne,
            lookupD_rule_base_other env text "resources" (by decide) (by decide)
              (by decide) (by decide) (by decide)]
      simp);
     (rw [lookupD_image_extra _ _ _ _ (by decide) (by decide) (by decide)];
      skip);
     skip; skip] <;>
    simp [lookupD_rule_base_other env text "resources" (by decide) (by decide)
      (by decide) (by decide) (by decide)]

theorem lookupD_extract_prompt_terms (env : PatternEnv) (text : String)
    (intent : QueryIntent) :
    lookupD (extract_parameters env text intent) "prompt_terms" =
      (if intent = QueryIntent.IMAGE_SEARCH
       then (env.promptMatch (pyLower text)).map vstr else none) := by
  cases intent <;> simp only [extract_parameters] <;>
    [skip;
     (rw [lookupD_comparison_extra _ _ _ _ (by decide) (by decide)]; skip);
     (rw [lookupD_notebook_extra _ _ _ _ (by decide) (by decide) (by decide)];
      skip);
     (unfold extract_image_parameters
      dsimp only
      rw [lookupD_maybeInsert_ne (by decide), lookupD_maybeInsert_ne
        (by decide)]
      rw [lookupD_maybeInsert_self
        (lookupD_rule_base_other env text "prompt_terms" (by decide) (by decide)
          (by decide) (by decide) (by decide))]
      simp);
     skip; skip] <;>
    simp [lookupD_rule_base_other env text "prompt_terms" (by decide) (by decide)
      (by decide) (by decide) (by decide)]

theorem lookupD_extract_style_tags (env : PatternEnv) (text : String)
    (intent : QueryIntent) :
    lookupD (extract_parameters env text intent) "style_tags" =
      (if intent = QueryIntent.IMAGE_SEARCH
       then (env.styleTags (pyLower text)).map fun tags =>
         vlist (tags.map vstr)
       else none) := by
  cases intent <;> simp only [extract_parameters] <;>
    [skip;
     (rw [lookupD_comparison_extra _ _ _ _ (by decide) (by decide)]; skip);
     (rw [lookupD_notebook_extra _ _ _ _ (by decide) (by decide) (by decide)];
      skip);
     (unfold extract_image_parameters
      dsimp only
      rw [lookupD_maybeInsert_ne (by decide)]
      rw [lookupD_maybeInsert_self ?hst]
      case hst =>
        rw [lookupD_maybeInsert_ne (by decide)]
        exact lookupD_rule_base_other env text "style_tags" (by decide) (by decide)
          (by decide) (by decide) (by decide)
      simp);
     skip; skip] <;>
    simp [lookupD_rule_base_other env text "style_tags" (by decide) (by decide)
      (by decide) (by decide) (by decide)]

theorem lookupD_extract_resolution (env : PatternEnv) (text : String)
    (intent : QueryIntent) :
    lookupD (extract_parameters env text intent) "resolution" =
      (if intent = QueryIntent.IMAGE_SEARCH
       then (env.resolutionMatch (pyLower text)).map fun p =>
         vdict [("width", vint p.1), ("height", vint p.2)]
       else none) := by
  cases intent <;> simp only [extract_parameters] <;>
    [skip;
     (rw [lookupD_comparison_extra _ _ _ _ (by decide) (by decide)]; skip);
     (rw [lookupD_notebook_extra _ _ _ _ (by decide) (by decide) (by decide)];
      skip);
     (unfold extract_image_parameters
      dsimp only
      rw [lookupD_maybeInsert_self ?hrz]
      case hrz =>
        rw [lookupD_maybeInsert_ne (by decide), lookupD_maybeInsert_ne
          (by decide)]
        exact lookupD_rule_base_other env text "resolution" (by decide) (by decide)
          (by decide) (by decide) (by decide)
      simp);
     skip; skip] <;>
    simp [lookupD_rule_base_other env text "resolution" (by decide) (by decide)
      (by decide) (by decide) (by decide)]

/-! ## Search dispatcher

`SearchDispatcher` (search_dispatcher.py). The Chroma client, the
embedders, wall-clock time and the per-model metadata fetch
(`_fetch_model_data`, an I/O round trip through `chroma_manager.get`) are
collaborators supplied by a `DispatchEnv`. Timing values are a single
abstract rational `clockMs`; no claim depends on them. -/

/-- Python `str(x)`, to the extent the embedded code needs it (it is only
used to build display strings and dict keys no claim inspects). -/
def pyStr : Value → String
  | vstr s => s
  | vint n => toString n
  | vbool true => "True"
  | vbool false => "False"
  | vnone => "None"
  | vnum q => toString q
  | vinf => "inf"
  | vlist _ => "[list]"
  | vdict _ => "[dict]"

/-- Python `len(x)`: sized values only, `TypeError` otherwise. -/
def pyLen : Value → Except String Int
  | vlist xs => .ok xs.length
  | vstr s => .ok s.length
  | vdict kvs => .ok kvs.length
  | _ => .error "TypeError: object has no len"

/-- Python iteration `for x in v`: lists themselves, strings their
characters, dicts their keys; `TypeError` otherwise. -/
def pyIterL : Value → Except String (List Value)
  | vlist xs => .ok xs
  | vstr s => .ok (s.data.map fun c => vstr (String.singleton c))
  | vdict kvs => .ok (kvs.map fun p => vstr p.1)
  | _ => .error "TypeError: not iterable"

/-- Python `x > 0` on a dynamic value: numbers and booleans compare,
everything else (including `None`) raises `TypeError`. -/
def pyGt0 : Value → Except String Bool
  | vint n => .ok (decide (0 < n))
  | vbool b => .ok b
  | vnum q => .ok (decide (0 < q))
  | vinf => .ok true
  | _ => .error "TypeError: comparison not supported"

/-- An optional number rendered into a dict (`None` for a missing value). -/
def optNum : Option ℚ → Value
  | some q => vnum q
  | none => vnone

/-- Embeds `response.get(&#39;results&#39;, [])` followed by iteration. -/
def resultsOf (resp : Value) : Except String (List Value) :=
  match dGet resp "results" with
  | none => .ok []
  | some (vlist xs) => .ok xs
  | some _ => .error "TypeError: not iterable"

/-- The view of a model &#39;performance&#39; sub-dict built by
`_fetch_model_data` (lines 609-615): every key present, values possibly
`None`. -/
structure Perf where
  accuracy : Option ℚ
  loss : Option ℚ
  perplexity : Option ℚ
  eval_dataset : Option String
  deriving Repr, DecidableEq

/-- The view of a model &#39;architecture&#39; sub-dict built by
`_fetch_model_data` (lines 600-607): the type string defaults to
`unknown`, the numeric fields are possibly `None`. -/
structure Arch where
  typeName : String
  hidden_size : Option ℚ
  num_layers : Option ℚ
  num_attention_heads : Option ℚ
  total_parameters : Option ℚ
  deriving Repr, DecidableEq

/-- The model-data dict built by `_fetch_model_data` (lines 568-648),
restricted to the fields the comparison pipeline reads: `model_id`,
`found`, and the optional `performance` and `architecture` sub-dicts
(present exactly when the corresponding metadata existed). The `training`,
`dataset`, `framework` and `basic` parts are not read by any embedded
claim. -/
structure ModelData where
  model_id : String
  found : Bool
  performance : Option Perf
  architecture : Option Arch
  deriving Repr, DecidableEq

/-- Embeds `model[&#39;performance&#39;]` on a model known (or filtered) to carry
performance data. -/
def perfD (m : ModelData) : Perf :=
  m.performance.getD ⟨none, none, none, none⟩

/-- Embeds `model[&#39;architecture&#39;]` on a model known (or filtered) to carry
architecture data. -/
def archD (m : ModelData) : Arch :=
  m.architecture.getD ⟨"unknown", none, none, none, none⟩

def perfValue (p : Perf) : Value :=
  vdict [("accuracy", optNum p.accuracy), ("loss", optNum p.loss),
         ("perplexity", optNum p.perplexity),
         ("eval_dataset", (p.eval_dataset.map vstr).getD vnone)]

def archValue (a : Arch) : Value :=
  vdict [("type", vstr a.typeName), ("hidden_size", optNum a.hidden_size),
         ("num_layers", optNum a.num_layers),
         ("num_attention_heads", optNum a.num_attention_heads),
         ("total_parameters", optNum a.total_parameters)]

/-- The dict shape of a fetched model-data record. -/
def ModelData.toValue (m : ModelData) : Value :=
  vdict ([("model_id", vstr m.model_id), ("found", vbool m.found)] ++
    (match m.performance with
     | some p => [("performance", perfValue p)]
     | none => []) ++
    (match m.architecture with
     | some a => [("architecture", archValue a)]
     | none => []))

/-- A vector-search request as assembled for `chroma_manager.search`. -/
structure SearchReq where
  collection : String
  embedding : List ℚ
  whereFilter : Value
  limit : Value
  includeFields : List String

/-- A metadata fetch request as assembled for `chroma_manager.get`. -/
structure GetReq where
  collection : String
  limit : Value
  whereFilter : Value
  includeFields : List String

/-- The collaborators of `SearchDispatcher`: embedders, the Chroma client,
the per-model fetch, the optional access-control manager, and abstract
wall-clock readings. The analytics collector only receives logs and is not
modelled. -/
structure DispatchEnv where
  embedText : String → Except String (List ℚ)
  imageEmbedImage : Value → Except String (List ℚ)
  imageEmbedText : String → Except String (List ℚ)
  chromaSearch : SearchReq → Except String Value
  chromaGet : GetReq → Except String Value
  fetchModelData : Value → Value → Except String ModelData
  accessControl :
    Option (List (String × Value) → String → List (String × Value))
  clockMs : ℚ
  nowEpoch : Int

/-- The search request built by `handle_text_search` (lines 151-164):
the limit defaults to 10 and is replaced by 10 unless it is a Python int
(`limit is None or not isinstance(limit, int)`; `None` fails `isinstance`
too), filters default to the empty dict and go through the translator. -/
def text_search_request (emb : List ℚ) (params : List (String × Value)) :
    Except String SearchReq := do
  let limit0 := (lookupD params "limit").getD (vint 10)
  let limit := if pyIsInt limit0 then limit0 else vint 10
  let filters := (lookupD params "filters").getD (vdict [])
  let cf ← translate_filters_to_chroma filters
  .ok { collection := "model_scripts", embedding := emb, whereFilter := cf,
        limit := limit, includeFields := ["metadatas", "documents"] }

/-- Result wrapping of `handle_text_search` (lines 175-183). -/
def processTextItems (results : List Value) : List Value :=
  results.enum.map fun p =>
    vdict [("id", (dGet p.2 "id").getD vnone),
           ("score", (dGet p.2 "score").getD (vnum 0)),
           ("metadata", (dGet p.2 "metadata").getD (vdict [])),
           ("content", (dGet p.2 "document").getD (vstr "")),
           ("rank", vint (p.1 + 1))]

/-- Embeds `SearchDispatcher.handle_text_search` (lines 131-208). The trailing
`except` clause only logs and re-raises, so errors propagate. -/
def handle_text_search (env : DispatchEnv) (query : String)
    (params : List (String × Value)) : Except String Value := do
  let emb ← env.embedText query
  let req ← text_search_request emb params
  let resp ← env.chromaSearch req
  let results ← resultsOf resp
  let items := processTextItems results
  .ok (vdict [("success", vbool true), ("type", vstr "text_search"),
        ("items", vlist items), ("total_found", vint items.length),
        ("performance", vdict
          [("embedding_time_ms", vnum env.clockMs),
           ("search_time_ms", vnum env.clockMs),
           ("total_time_ms", vnum env.clockMs)])])

/-- The request built by `handle_metadata_search` (lines 475-489): filters
default to the empty dict and are translated; the limit defaults to 20
when the key is absent and is used as-is when present. -/
def metadata_request (params : List (String × Value)) :
    Except String GetReq := do
  let filters := (lookupD params "filters").getD (vdict [])
  let limit := (lookupD params "limit").getD (vint 20)
  let cf ← translate_filters_to_chroma filters
  .ok { collection := "model_scripts", limit := limit, whereFilter := cf,
        includeFields := ["metadatas"] }

/-- Result wrapping of `handle_metadata_search` (lines 493-499). -/
def processMetadataItems (results : List Value) : List Value :=
  results.enum.map fun p =>
    vdict [("id", (dGet p.2 "id").getD vnone),
           ("metadata", (dGet p.2 "metadata").getD (vdict [])),
           ("rank", vint (p.1 + 1))]

/-- Embeds `SearchDispatcher.handle_metadata_search` (lines 460-514). -/
def handle_metadata_search (env : DispatchEnv) (query : String)
    (params : List (String × Value)) : Except String Value := do
  let req ← metadata_request params
  let resp ← env.chromaGet req
  let results ← resultsOf resp
  let items := processMetadataItems results
  .ok (vdict [("success", vbool true), ("type", vstr "metadata_search"),
        ("items", vlist items), ("total_found", vint items.length),
        ("performance", vdict
          [("search_time_ms", vnum env.clockMs),
           ("total_time_ms", vnum env.clockMs)])])

/-- The filter dict built by `handle_image_search` (lines 246-261): style
tags, prompt containment, exact resolution, model inclusion, each guarded
by Python truthiness (and key presence for `model_ids`). -/
def image_search_filters (params : List (String × Value)) :
    List (String × Value) :=
  let style := (lookupD params "style_tags").getD (vlist [])
  let prompt := (lookupD params "prompt_terms").getD (vstr "")
  let res := (lookupD params "resolution").getD vnone
  let f1 := if pyTruthy style then insertD [] "style_tags"
    (vdict [("$in", style)]) else []
  let f2 := if pyTruthy prompt then insertD f1 "prompt"
    (vdict [("$contains", prompt)]) else f1
  let f3 := if pyTruthy res then
      insertD (insertD f2 "resolution.width"
          (vdict [("$eq", (dGet res "width").getD vnone)]))
        "resolution.height" (vdict [("$eq", (dGet res "height").getD vnone)])
    else f2
  match lookupD params "model_ids" with
  | some mids =>
      if pyTruthy mids then
        insertD f3 "source_model_id" (vdict [("$in", mids)])
      else f3
  | none => f3

/-- The search request built by `handle_image_search` (lines 240-269): the
limit defaults to 20 when absent and is used as-is when present; an empty
filter dict is passed as `None`. -/
def image_search_request (emb : List ℚ) (params : List (String × Value)) :
    SearchReq :=
  let limit := (lookupD params "limit").getD (vint 20)
  let filters := image_search_filters params
  { collection := "generated_images", embedding := emb,
    whereFilter := if filters.isEmpty then vnone else vdict filters,
    limit := limit, includeFields := ["metadatas"] }

/-- Result wrapping of `handle_image_search` (lines 280-295). -/
def processImageItems (results : List Value) : List Value :=
  results.enum.map fun p =>
    let md := (dGet p.2 "metadata").getD (vdict [])
    vdict [("id", (dGet p.2 "id").getD vnone),
           ("score", (dGet p.2 "score").getD (vnum 0)),
           ("metadata", md),
           ("image_path", (dGet md "image_path").getD (vstr "")),
           ("thumbnail_path", (dGet md "thumbnail_path").getD (vstr "")),
           ("rank", vint (p.1 + 1))]

/-- Embeds `SearchDispatcher.handle_image_search` (lines 210-320): image-to-image
embedding when binary `image_data` is present, text-to-image otherwise. -/
def handle_image_search (env : DispatchEnv) (query : String)
    (params : List (String × Value)) : Except String Value := do
  let emb ← match lookupD params "image_data" with
    | some idata => env.imageEmbedImage idata
    | none => env.imageEmbedText query
  let req := image_search_request emb params
  let resp ← env.chromaSearch req
  let results ← resultsOf resp
  let items := processImageItems results
  .ok (vdict [("success", vbool true), ("type", vstr "image_search"),
        ("items", vlist items), ("total_found", vint items.length),
        ("performance", vdict
          [("embedding_time_ms", vnum env.clockMs),
           ("search_time_ms", vnum env.clockMs),
           ("total_time_ms", vnum env.clockMs)])])

/-- Embeds `&#34;, &#34;.join(model_ids)`: joins string elements, raises `TypeError`
on any non-string element. -/
def joinIds (xs : List Value) : Except String String := do
  let strs ← xs.mapM fun x => match x with
    | vstr s => Except.ok s
    | _ => Except.error "TypeError: sequence item is not str"
  .ok (String.intercalate ", " strs)

/-- Embeds `SearchDispatcher.handle_notebook_request` (lines 399-458). A falsy
(empty or absent) `model_ids` raises
`ValueError: Notebook generation requires at least one model ID`.
Subscripting a truthy non-list `model_ids` would index a string or raise
in Python; no claim exercises that degenerate case and it is embedded as
an error. -/
def handle_notebook_request (env : DispatchEnv) (query : String)
    (params : List (String × Value)) : Except String Value := do
  let model_ids := (lookupD params "model_ids").getD (vlist [])
  if ¬ pyTruthy model_ids then
    throw "Notebook generation requires at least one model ID"
  else do
    let analysis_types :=
      (lookupD params "analysis_types").getD (vlist [vstr "basic"])
    let dataset := (lookupD params "dataset").getD vnone
    let resources := (lookupD params "resources").getD (vstr "standard")
    let notebook_request := vdict
      [("model_ids", model_ids), ("analysis_types", analysis_types),
       ("dataset", dataset), ("resources", resources),
       ("user_id", (lookupD params "user_id").getD vnone)]
    let idList ← match model_ids with
      | vlist xs => Except.ok xs
      | _ => Except.error "TypeError: not subscriptable"
    let firstId := pyStr (idList.headI)
    let joined ← joinIds idList
    let notebook_result := vdict
      [("notebook_id",
        vstr ("nb_" ++ firstId ++ "_" ++ toString env.nowEpoch)),
       ("title", vstr ("Analysis of " ++ joined)),
       ("status", vstr "pending"),
       ("estimated_completion_time", vint (env.nowEpoch + 300))]
    .ok (vdict [("success", vbool true), ("type", vstr "notebook_request"),
          ("request", notebook_request), ("result", notebook_result),
          ("performance", vdict [("total_time_ms", vnum env.clockMs)])])

/-! ## Comparison generators

`_generate_performance_comparisons` (lines 650-764) and
`_generate_architecture_comparisons` (lines 766-903). Python `list.sort`
is a stable sort; it is embedded as a stable insertion sort, which
produces the identical list for the same comparator. `reverse=True`
reverses the comparator while keeping ties in encounter order, hence the
flipped comparator below. Sorting a list of two or more entries whose sort
keys include `None` raises `TypeError` in Python (every adjacent pair is
compared); the generators only ever sort such lists after filtering or
with at least two models, which the embedding mirrors. -/

/-- Stable insert: a later element goes after the equal earlier ones. -/
def sortedInsert {α : Type} (le : α → α → Bool) (x : α) :
    List α → List α
  | [] => [x]
  | y :: ys => if le y x then y :: sortedInsert le x ys else x :: y :: ys

/-- Stable sort (the observable behaviour of Python `list.sort`). -/
def stableSort {α : Type} (le : α → α → Bool) (l : List α) : List α :=
  l.foldl (fun acc x => sortedInsert le x acc) []

/-- Embeds `[m for m in model_data_list if m.get(&#39;found&#39;) and &#39;performance&#39; in m]`
(lines 668-671). -/
def modelsWithPerf (l : List ModelData) : List ModelData :=
  l.filter fun m => m.found && m.performance.isSome

/-- Inner body of the pairwise loop (lines 725-758): the `improvements`
dict for one ordered pair. Each metric is recorded only when both values
are present and the denominator is strictly positive (`acc2 > 0` etc.);
accuracy counts higher as better, loss and perplexity lower. -/
def pairImprovements (p1 p2 : Perf) : List (String × Value) :=
  let i1 : List (String × Value) :=
    match p1.accuracy, p2.accuracy with
    | some a1, some a2 =>
        if 0 < a2 then
          insertD [] "accuracy" (vdict
            [("absolute", vnum (a1 - a2)),
             ("percentage", vnum ((a1 - a2) / a2 * 100)),
             ("better", vbool (decide (a2 < a1)))])
        else []
    | _, _ => []
  let i2 :=
    match p1.loss, p2.loss with
    | some l1, some l2 =>
        if 0 < l2 then
          insertD i1 "loss" (vdict
            [("absolute", vnum (l1 - l2)),
             ("percentage", vnum ((l1 - l2) / l2 * 100)),
             ("better", vbool (decide (l1 < l2)))])
        else i1
    | _, _ => i1
  match p1.perplexity, p2.perplexity with
  | some q1, some q2 =>
      if 0 < q2 then
        insertD i2 "perplexity" (vdict
          [("absolute", vnum (q1 - q2)),
           ("percentage", vnum ((q1 - q2) / q2 * 100)),
           ("better", vbool (decide (q1 < q2)))])
      else i2
  | _, _ => i2

/-- The `relative_improvements` dict (lines 717-760): every ordered pair of
distinct positions, keyed `id1_vs_id2`. -/
def relativeImprovements (ms : List ModelData) : List (String × Value) :=
  ms.enum.foldl
    (fun acc p1 =>
      ms.enum.foldl
        (fun acc p2 =>
          if p1.1 = p2.1 then acc
          else insertD acc (p1.2.model_id ++ "_vs_" ++ p2.2.model_id)
            (vdict (pairImprovements (perfD p1.2) (perfD p2.2))))
        acc)
    []

/-- One best-plus-ranking block (lines 684-687 and analogues). -/
def rankingBlock (sorted : List (String × ℚ)) : Value :=
  vdict [("best", vdict [("model_id", vstr sorted.headI.1),
                         ("value", vnum sorted.headI.2)]),
         ("ranking", vlist (sorted.map fun p =>
            vdict [("model_id", vstr p.1), ("value", vnum p.2)]))]

/-- Embeds `SearchDispatcher._generate_performance_comparisons` (lines 650-764). -/
def generate_performance_comparisons (model_data_list : List ModelData) :
    List (String × Value) :=
  let models_with_perf := modelsWithPerf model_data_list
  if models_with_perf.length < 2 then
    [("error", vstr "Not enough models with performance data for comparison")]
  else
    let c0 : List (String × Value) :=
      [("accuracy", vdict []), ("loss", vdict []), ("perplexity", vdict []),
       ("relative_improvement", vdict [])]
    let accuracy_models := models_with_perf.filterMap fun m =>
      (perfD m).accuracy.map fun a => (m.model_id, a)
    let c1 := if accuracy_models.isEmpty then c0 else
      insertD c0 "accuracy" (rankingBlock
        (stableSort (fun a b => decide (b.2 ≤ a.2)) accuracy_models))
    let loss_models := models_with_perf.filterMap fun m =>
      (perfD m).loss.map fun a => (m.model_id, a)
    let c2 := if loss_models.isEmpty then c1 else
      insertD c1 "loss" (rankingBlock
        (stableSort (fun a b => decide (a.2 ≤ b.2)) loss_models))
    let perplexity_models := models_with_perf.filterMap fun m =>
      (perfD m).perplexity.map fun a => (m.model_id, a)
    let c3 := if perplexity_models.isEmpty then c2 else
      insertD c2 "perplexity" (rankingBlock
        (stableSort (fun a b => decide (a.2 ≤ b.2)) perplexity_models))
    if 2 ≤ models_with_perf.length then
      insertD c3 "relative_improvement"
        (vdict (relativeImprovements models_with_perf))
    else c3

/-- Embeds `[m for m in model_data_list if m.get(&#39;found&#39;) and &#39;architecture&#39; in m]`
(lines 783-786). -/
def modelsWithArch (l : List ModelData) : List ModelData :=
  l.filter fun m => m.found && m.architecture.isSome

/-- Embeds `arch_types` grouping (lines 792-797): append each model id to the
bucket of its architecture type, creating buckets in encounter order. -/
def appendAtKey (d : List (String × Value)) (k : String) (x : Value) :
    List (String × Value) :=
  match lookupD d k with
  | some (vlist xs) => insertD d k (vlist (xs ++ [x]))
  | _ => insertD d k (vlist [x])

def archTypes (ms : List ModelData) : List (String × Value) :=
  ms.foldl (fun acc m => appendAtKey acc (archD m).typeName
    (vstr m.model_id)) []

/-- Descending sort of `(id, value)` pairs whose values may be `None`
(`param_models.sort(key=lambda x: x[1], reverse=True)`, line 807). With
two or more entries a `None` key raises `TypeError`; the callers sort only
lists of at least two entries. -/
def sortKeyedDesc (xs : List (String × Option ℚ)) :
    Except String (List (String × ℚ)) :=
  if xs.any (fun p => p.2.isNone) then
    .error "TypeError: NoneType comparison"
  else
    .ok (stableSort (fun a b => decide (b.2 ≤ a.2))
      (xs.filterMap fun p => p.2.map fun q => (p.1, q)))

/-- The `model_size` block (lines 801-824): largest, smallest, full
ranking, and pairwise size ratios guarding `params2 == 0` (a negative
denominator falls into the `float(&#39;inf&#39;)` arm). -/
def modelSizeBlock (ms : List ModelData) : Except String Value := do
  let param_models := ms.map fun m =>
    (m.model_id, (archD m).total_parameters)
  if param_models.isEmpty then .ok (vdict [])
  else do
    let sorted ← sortKeyedDesc param_models
    let base : List (String × Value) :=
      [("largest", vdict [("model_id", vstr sorted.headI.1),
                          ("parameters", vnum sorted.headI.2)]),
       ("smallest", vdict [("model_id", vstr sorted.getLastI.1),
                           ("parameters", vnum sorted.getLastI.2)]),
       ("ranking", vlist (sorted.map fun p =>
          vdict [("model_id", vstr p.1), ("parameters", vnum p.2)]))]
    if 2 ≤ sorted.length then
      let ratios := sorted.enum.foldl
        (fun acc p1 =>
          sorted.enum.foldl
            (fun acc p2 =>
              if p1.1 = p2.1 ∨ p2.2.2 = 0 then acc
              else insertD acc (p1.2.1 ++ "_vs_" ++ p2.2.1)
                (if 0 < p2.2.2 then vnum (p1.2.2 / p2.2.2) else vinf))
            acc)
        []
      .ok (vdict (insertD base "relative_sizes" (vdict ratios)))
    else .ok (vdict base)

/-- Short-circuit evaluation of
`all(k in metrics and metrics[k] > 0 for ...)` over possibly-`None`
values (lines 844, 856, 869, 882): the key is always present, comparing a
`None` value raises, a non-positive value stops with `False`. -/
def allPosE : List (Option ℚ) → Except String Bool
  | [] => .ok true
  | none :: _ => .error "TypeError: NoneType comparison"
  | some q :: rest => if 0 < q then allPosE rest else .ok false

/-- A most/least (or largest/smallest) complexity comparison block
(lines 849-853 and analogues). -/
def complexityRankBlock (bigKey smallKey : String)
    (sorted : List (String × ℚ)) : Value :=
  vdict [(bigKey, vdict [("model_id", vstr sorted.headI.1),
                         ("value", vnum sorted.headI.2)]),
         (smallKey, vdict [("model_id", vstr sorted.getLastI.1),
                           ("value", vnum sorted.getLastI.2)]),
         ("ranking", vlist (sorted.map fun p =>
            vdict [("model_id", vstr p.1), ("value", vnum p.2)]))]

/-- The `complexity_metrics` dict (lines 827-836). -/
def complexityMetricsDict (ms : List ModelData) :
    List (String × (Option ℚ × Option ℚ × Option ℚ)) :=
  ms.foldl
    (fun acc m => insertD acc m.model_id
      ((archD m).num_layers, (archD m).num_attention_heads,
       (archD m).hidden_size))
    []

/-- The `complexity` block (lines 827-879): the per-model metrics dict,
plus one ranked comparison per metric, each only when every model has a
strictly positive value for it. -/
def complexityBlock (ms : List ModelData) : Except String Value := do
  let cm := complexityMetricsDict ms
  let metricsVal := vdict (cm.map fun p =>
    (p.1, vdict [("layers", optNum p.2.1),
                 ("attention_heads", optNum p.2.2.1),
                 ("hidden_size", optNum p.2.2.2)]))
  let layersOk ← allPosE (cm.map fun p => p.2.1)
  let comps1 : List (String × Value) :=
    if layersOk then
      insertD [] "layers" (complexityRankBlock "most" "least"
        (stableSort (fun a b => decide (b.2 ≤ a.2))
          (cm.filterMap fun p => p.2.1.map fun q => (p.1, q))))
    else []
  let headsOk ← allPosE (cm.map fun p => p.2.2.1)
  let comps2 :=
    if headsOk then
      insertD comps1 "attention_heads" (complexityRankBlock "most" "least"
        (stableSort (fun a b => decide (b.2 ≤ a.2))
          (cm.filterMap fun p => p.2.2.1.map fun q => (p.1, q))))
    else comps1
  let hiddenOk ← allPosE (cm.map fun p => p.2.2.2)
  let comps3 :=
    if hiddenOk then
      insertD comps2 "hidden_size" (complexityRankBlock "largest" "smallest"
        (stableSort (fun a b => decide (b.2 ≤ a.2))
          (cm.filterMap fun p => p.2.2.2.map fun q => (p.1, q))))
    else comps2
  .ok (vdict [("metrics", metricsVal), ("comparisons", vdict comps3)])

/-- One step of the `efficiency_metrics` loop (lines 886-898). -/
def effStep (acc : List (String × Value)) (m : ModelData) :
    Except String (List (String × Value)) :=
  match m.performance with
  | some perf =>
      match perf.accuracy with
      | some a =>
          match (archD m).total_parameters with
          | some p =>
              if 0 < p then
                pure (insertD acc m.model_id (vdict
                  [("accuracy_per_million_params",
                    vnum (a / (p / 1000000)))]))
              else pure acc
          | none => throw "TypeError: NoneType comparison"
      | none => pure acc
  | none => pure acc

/-- The `efficiency_metrics` loop (lines 884-898): an entry per model that
has performance data with a non-`None` accuracy; the parameter count is
re-compared with 0 inside (`None` there would raise, though the enclosing
guard has already excluded it). -/
def efficiencyEntries (ms : List ModelData) :
    Except String (List (String × Value)) :=
  ms.foldlM effStep []

/-- A model whose fetched parameter count is a strictly positive number. -/
def paramsPos (m : ModelData) : Bool :=
  match (archD m).total_parameters with
  | some p => decide (0 < p)
  | none => false

/-- A model that contributes an efficiency entry: performance data with a
defined accuracy and a strictly positive parameter count. -/
def contributesEff (m : ModelData) : Bool :=
  m.performance.isSome &&
    ((perfD m).accuracy.isSome && paramsPos m)

/-- Embeds `SearchDispatcher._generate_architecture_comparisons` (lines 766-903).
The result dict keeps its initialization order `architecture_types`,
`model_size`, `complexity`, with `efficiency` appended when produced. -/
def generate_architecture_comparisons (l : List ModelData) :
    Except String (List (String × Value)) :=
  let ms := modelsWithArch l
  if ms.length < 2 then
    .ok [("error",
          vstr "Not enough models with architecture data for comparison")]
  else do
    let archT := archTypes ms
    let sizeB ← modelSizeBlock ms
    let complexityB ← complexityBlock ms
    let effGuard ← allPosE (ms.map fun m => (archD m).total_parameters)
    let eff ← if effGuard then efficiencyEntries ms else pure []
    let base : List (String × Value) :=
      [("architecture_types", vdict archT), ("model_size", sizeB),
       ("complexity", complexityB)]
    if effGuard ∧ ¬ eff.isEmpty then
      .ok (base ++ [("efficiency", vdict eff)])
    else .ok base

/-- Embeds `&#39;performance&#39; in dimensions` style membership test. -/
def containsStr (xs : List Value) (s : String) : Bool :=
  xs.any fun v => match v with
    | vstr t => t = s
    | _ => false

/-- The per-dimension slice `model_data.get(dimension, ...)` (line 368),
for the dimensions the embedded `ModelData` carries. -/
def dimensionSlice (m : ModelData) (dim : String) : Value :=
  if dim = "performance" then (m.performance.map perfValue).getD (vdict [])
  else if dim = "architecture" then
    (m.architecture.map archValue).getD (vdict [])
  else vdict []

/-- Embeds `SearchDispatcher.handle_comparison` (lines 322-397): validate at least
two model ids, fetch each model concurrently (the fan-out is a
collaborator; `asyncio.gather` preserves order), organize by model and by
dimension, and attach the generator summaries for the `performance` and
`architecture` dimensions. -/
def handle_comparison (env : DispatchEnv) (query : String)
    (params : List (String × Value)) : Except String Value := do
  let model_ids := (lookupD params "model_ids").getD (vlist [])
  if ¬ pyTruthy model_ids then
    throw "Comparison requires at least two model IDs"
  else do
    let n ← pyLen model_ids
    if n < 2 then throw "Comparison requires at least two model IDs"
    else do
      let dims := (lookupD params "comparison_dimensions").getD
        (vlist [vstr "architecture", vstr "performance"])
      let idList ← pyIterL model_ids
      let mdl ← idList.mapM fun mid => env.fetchModelData mid dims
      let modelsT := mdl.foldl
        (fun acc md => insertD acc md.model_id md)
        ([] : List (String × ModelData))
      let modelsDict := mdl.foldl
        (fun acc md => insertD acc md.model_id md.toValue) []
      let dimList ← pyIterL dims
      let dimsDict := dimList.foldl
        (fun acc dv => insertD acc (pyStr dv)
          (vdict (mdl.foldl
            (fun acc2 md => insertD acc2 md.model_id
              (dimensionSlice md (pyStr dv)))
            [])))
        []
      let pick : Except String (List ModelData) := idList.mapM fun mid =>
        match lookupD modelsT (pyStr mid) with
        | some md => pure md
        | none => throw "KeyError"
      let perfSummary ← if containsStr dimList "performance" ∧ 2 ≤ n then do
          let picked ← pick
          pure (some (vdict (generate_performance_comparisons picked)))
        else pure none
      let archSummary ← if containsStr dimList "architecture" ∧ 2 ≤ n then do
          let picked ← pick
          let a ← generate_architecture_comparisons picked
          pure (some (vdict a))
        else pure none
      let summary := maybeInsert
        (maybeInsert [] "performance" perfSummary) "architecture" archSummary
      let comparison_results := vdict
        [("models", vdict modelsDict), ("dimensions", vdict dimsDict),
         ("summary", vdict summary)]
      .ok (vdict [("success", vbool true), ("type", vstr "comparison"),
            ("models", model_ids), ("dimensions", dims),
            ("results", comparison_results),
            ("performance", vdict [("total_time_ms", vnum env.clockMs)])])

/-- Embeds `SearchDispatcher.handle_fallback_search` (lines 516-566): text search
first; on zero results metadata search inside its own `try` (a failure
there only logs); then the empty-but-successful envelope. The outer
`except` converts any text-search failure into a structured error
envelope, so the handler itself never raises. -/
def handle_fallback_search (env : DispatchEnv) (query : String)
    (params : List (String × Value)) : Except String Value :=
  let core : Except String Value := do
    let tr ← handle_text_search env query params
    let s1 := pyTruthy ((dGet tr "success").getD (vbool false))
    let c1 ← if s1 then pyGt0 ((dGet tr "total_found").getD (vint 0))
      else pure false
    if c1 then pure tr
    else
      let inner : Except String (Value × Bool) := do
        let mr ← handle_metadata_search env query params
        let s2 := pyTruthy ((dGet mr "success").getD (vbool false))
        let c2 ← if s2 then pyGt0 ((dGet mr "total_found").getD (vint 0))
          else pure false
        pure (mr, c2)
      match inner with
      | .ok (mr, true) => pure mr
      | _ => pure (vdict
          [("success", vbool true), ("type", vstr "fallback_search"),
           ("items", vlist []), ("total_found", vint 0),
           ("message",
            vstr "No results found using various search strategies")])
  match core with
  | .ok v => .ok v
  | .error _ => .ok (vdict
      [("success", vbool false),
       ("error", vstr "An error occurred during the search"),
       ("type", vstr "fallback_search"), ("items", vlist []),
       ("total_found", vint 0)])

/-- The handler table (lines 45-52). -/
def handlerFor (intent : QueryIntent) :
    DispatchEnv → String → List (String × Value) → Except String Value :=
  match intent with
  | .RETRIEVAL => handle_text_search
  | .COMPARISON => handle_comparison
  | .NOTEBOOK => handle_notebook_request
  | .IMAGE_SEARCH => handle_image_search
  | .METADATA => handle_metadata_search
  | .UNKNOWN => handle_fallback_search

/-- Embeds `SearchDispatcher._sanitize_parameters` (lines 965-992). -/
def sanitize_parameters (params : List (String × Value)) :
    List (String × Value) :=
  let removed := ["user_id", "access_token", "auth_context", "raw_query",
                  "query_id"]
  let sanitized := params.filter fun p => !(removed.contains p.1)
  sanitized.map fun p =>
    if p.1 = "image_data" then (p.1, vstr "[binary data removed]") else p

/-- Embeds `SearchDispatcher.dispatch` (lines 54-129): coerce a string intent
(unknown strings fall back to `RETRIEVAL` with a warning), apply access
control before the handler when both the manager and a user id are
present, run exactly one handler, and wrap success with a metadata block
or any raised exception into a failed envelope. The analytics calls only
log. This function is total: no handler exception propagates. -/
def dispatch (env : DispatchEnv) (query : String)
    (intent : String ⊕ QueryIntent) (params : List (String × Value))
    (user_id : Option String) : Value :=
  let intentE : QueryIntent :=
    match intent with
    | .inl s => (queryIntentOfString s).getD .RETRIEVAL
    | .inr i => i
  let params := match env.accessControl, user_id with
    | some f, some uid => f params uid
    | _, _ => params
  match handlerFor intentE env query params with
  | .ok results =>
      (match results with
       | vdict kvs => vdict (insertD kvs "metadata" (vdict
           [("intent", vstr intentE.value),
            ("execution_time_ms", vnum env.clockMs),
            ("result_count",
             vint (match dGet results "items" with
                   | some (vlist xs) => xs.length
                   | _ => 0)),
            ("parameters", vdict (sanitize_parameters params))]))
       | v => v)
  | .error e =>
      vdict [("success", vbool false), ("error", vstr e),
             ("metadata", vdict
               [("intent", vstr intentE.value),
                ("execution_time_ms", vnum env.clockMs)])]

/-! ### Laws of the architecture-comparison generator -/

theorem insertD_ne_nil {α : Type} (l : List (String × α)) (k : String)
    (v : α) : insertD l k v ≠ [] := by
  cases l with
  | nil => simp [insertD]
  | cons q rest =>
      obtain ⟨k1, v1⟩ := q
      by_cases h : k1 = k <;> simp [insertD, h]

theorem allPosE_ok {xs : List (Option ℚ)} (h : ∀ o ∈ xs, o.isSome) :
    ∃ b, allPosE xs = .ok b := by
  induction xs with
  | nil => exact ⟨true, rfl⟩
  | cons o rest ih =>
      match o, h o (by simp) with
      | some q, _ =>
          by_cases hq : 0 < q
          · obtain ⟨b, hb⟩ := ih (fun x hx => h x (by simp [hx]))
            exact ⟨b, by simp [allPosE, hq, hb]⟩
          · exact ⟨false, by simp [allPosE, hq]⟩

theorem allPosE_params (ms : List ModelData)
    (h : ∀ m ∈ ms, ((archD m).total_parameters).isSome) :
    allPosE (ms.map fun m => (archD m).total_parameters) =
      .ok (ms.all paramsPos) := by
  induction ms with
  | nil => rfl
  | cons m rest ih =>
      have hm := h m (by simp)
      match hp : (archD m).total_parameters, hm with
      | some p, _ =>
          simp only [List.map_cons, List.all_cons, hp]
          by_cases hq : 0 < p
          · simp [allPosE, hq, ih (fun x hx => h x (by simp [hx])),
              paramsPos, hp]
          · simp [allPosE, hq, paramsPos, hp]

theorem sortKeyedDesc_ok {xs : List (String × Option ℚ)}
    (h : ∀ p ∈ xs, p.2.isSome) : ∃ s, sortKeyedDesc xs = .ok s := by
  have hany : xs.any (fun p => p.2.isNone) = false := by
    rw [List.any_eq_false]
    intro p hp
    have hps := h p hp
    cases hv : p.2 with
    | none => rw [hv] at hps; simp at hps
    | some q => simp [hv]
  refine ⟨stableSort (fun a b => decide (b.2 ≤ a.2))
    (xs.filterMap fun p => p.2.map fun q => (p.1, q)), ?_⟩
  simp [sortKeyedDesc, hany]

theorem modelSizeBlock_ok (ms : List ModelData)
    (h : ∀ m ∈ ms, ((archD m).total_parameters).isSome) :
    ∃ v, modelSizeBlock ms = .ok v := by
  by_cases he :
    (ms.map fun m => (m.model_id, (archD m).total_parameters)).isEmpty
  · exact ⟨vdict [], by unfold modelSizeBlock; simp [he]⟩
  · have hxs : ∀ p ∈ (ms.map fun m =>
        (m.model_id, (archD m).total_parameters)), p.2.isSome := by
      intro p hp
      simp only [List.mem_map] at hp
      obtain ⟨m, hm, rfl⟩ := hp
      exact h m hm
    obtain ⟨s, hs⟩ := sortKeyedDesc_ok hxs
    cases hres : modelSizeBlock ms with
    | ok v => exact ⟨v, rfl⟩
    | error e =>
        unfold modelSizeBlock at hres
        by_cases h2 : 2 ≤ s.length <;>
          simp [he, hs, Bind.bind, Except.bind, h2] at hres

theorem mem_complexityMetricsDict (ms : List ModelData)
    (h : ∀ m ∈ ms, ((archD m).num_layers).isSome ∧
      ((archD m).num_attention_heads).isSome ∧
      ((archD m).hidden_size).isSome) :
    ∀ p ∈ complexityMetricsDict ms,
      (p.2.1.isSome ∧ p.2.2.1.isSome ∧ p.2.2.2.isSome) := by
  have haux : ∀ (xs : List ModelData)
      (acc : List (String × (Option ℚ × Option ℚ × Option ℚ))),
      (∀ m ∈ xs, ((archD m).num_layers).isSome ∧
        ((archD m).num_attention_heads).isSome ∧
        ((archD m).hidden_size).isSome) →
      (∀ p ∈ acc, (p.2.1.isSome ∧ p.2.2.1.isSome ∧ p.2.2.2.isSome)) →
      ∀ p ∈ xs.foldl
        (fun acc m => insertD acc m.model_id
          ((archD m).num_layers, (archD m).num_attention_heads,
           (archD m).hidden_size)) acc,
        (p.2.1.isSome ∧ p.2.2.1.isSome ∧ p.2.2.2.isSome) := by
    intro xs
    induction xs with
    | nil => intro acc _ hacc; simpa using hacc
    | cons m rest ih =>
        intro acc hxs hacc
        simp only [List.foldl_cons]
        refine ih _ (fun x hx => hxs x (by simp [hx])) ?_
        intro p hp
        rcases mem_insertD hp with hmem | hmem
        · exact hacc p hmem
        · rw [hmem]; exact hxs m (by simp)
  exact haux ms [] h (by simp)

theorem complexityBlock_ok (ms : List ModelData)
    (h : ∀ m ∈ ms, ((archD m).num_layers).isSome ∧
      ((archD m).num_attention_heads).isSome ∧
      ((archD m).hidden_size).isSome) :
    ∃ v, complexityBlock ms = .ok v := by
  have hcm := mem_complexityMetricsDict ms h
  have hx1 : ∀ o ∈ (complexityMetricsDict ms).map (fun p => p.2.1),
      o.isSome := by
    intro o ho
    simp only [List.mem_map] at ho
    obtain ⟨p, hp, rfl⟩ := ho
    exact (hcm p hp).1
  have hx2 : ∀ o ∈ (complexityMetricsDict ms).map (fun p => p.2.2.1),
      o.isSome := by
    intro o ho
    simp only [List.mem_map] at ho
    obtain ⟨p, hp, rfl⟩ := ho
    exact (hcm p hp).2.1
  have hx3 : ∀ o ∈ (complexityMetricsDict ms).map (fun p => p.2.2.2),
      o.isSome := by
    intro o ho
    simp only [List.mem_map] at ho
    obtain ⟨p, hp, rfl⟩ := ho
    exact (hcm p hp).2.2
  obtain ⟨b1, hb1⟩ := allPosE_ok hx1
  obtain ⟨b2, hb2⟩ := allPosE_ok hx2
  obtain ⟨b3, hb3⟩ := allPosE_ok hx3
  cases hres : complexityBlock ms with
  | ok v => exact ⟨v, rfl⟩
  | error e =>
      unfold complexityBlock at hres
      simp [hb1, hb2, hb3, Bind.bind, Except.bind] at hres

theorem efficiencyEntries_aux (ms : List ModelData)
    (h : ∀ m ∈ ms, ((archD m).total_parameters).isSome) :
    ∀ acc, ∃ eff, ms.foldlM effStep acc = .ok eff ∧
      (eff = [] ↔ (acc = [] ∧ ∀ m ∈ ms, contributesEff m = false)) := by
  induction ms with
  | nil => intro acc; exact ⟨acc, rfl, by simp⟩
  | cons m rest ih =>
      intro acc
      have hm := h m (by simp)
      obtain ⟨p, hp⟩ := Option.isSome_iff_exists.mp hm
      match hperf : m.performance with
      | none =>
          obtain ⟨eff, heq, hiff⟩ := ih (fun x hx => h x (by simp [hx])) acc
          refine ⟨eff, ?_, ?_⟩
          · simp [List.foldlM_cons, effStep, hperf, heq, Bind.bind,
              Except.bind, Pure.pure, Except.pure]
          · rw [hiff]
            simp [List.forall_mem_cons, contributesEff, hperf, and_assoc]
      | some perf =>
          match hacc : perf.accuracy with
          | none =>
              obtain ⟨eff, heq, hiff⟩ :=
                ih (fun x hx => h x (by simp [hx])) acc
              refine ⟨eff, ?_, ?_⟩
              · simp [List.foldlM_cons, effStep, hperf, hacc, heq,
                  Bind.bind, Except.bind, Pure.pure, Except.pure]
              · rw [hiff]
                simp [List.forall_mem_cons, contributesEff, perfD, hperf,
                  hacc, and_assoc]
          | some a =>
              by_cases hq : 0 < p
              · obtain ⟨eff, heq, hiff⟩ :=
                  ih (fun x hx => h x (by simp [hx]))
                    (insertD acc m.model_id (vdict
                      [("accuracy_per_million_params",
                        vnum (a / (p / 1000000)))]))
                refine ⟨eff, ?_, ?_⟩
                · simp [List.foldlM_cons, effStep, hperf, hacc, hp, hq,
                    Bind.bind, Except.bind, Pure.pure, Except.pure, heq]
                · constructor
                  · intro he
                    exact absurd (hiff.mp he).1 (insertD_ne_nil _ _ _)
                  · rintro ⟨-, hall⟩
                    exact absurd (hall m (by simp))
                      (by simp [contributesEff, perfD, hperf, hacc,
                        paramsPos, hp, hq])
              · obtain ⟨eff, heq, hiff⟩ :=
                  ih (fun x hx => h x (by simp [hx])) acc
                refine ⟨eff, ?_, ?_⟩
                · simp [List.foldlM_cons, effStep, hperf, hacc, hp, hq,
                    Bind.bind, Except.bind, Pure.pure, Except.pure, heq]
                · rw [hiff]
                  simp [List.forall_mem_cons, contributesEff, perfD, hperf,
                    hacc, paramsPos, hp, hq, and_assoc]

theorem efficiencyEntries_ok (ms : List ModelData)
    (h : ∀ m ∈ ms, ((archD m).total_parameters).isSome) :
    ∃ eff, efficiencyEntries ms = .ok eff ∧
      (eff = [] ↔ ∀ m ∈ ms, contributesEff m = false) := by
  obtain ⟨eff, heq, hiff⟩ := efficiencyEntries_aux ms h []
  refine ⟨eff, heq, ?_⟩
  rw [hiff]
  simp

/-! ## Concrete environments used by witnesses and counterexamples -/

/-- A pattern environment in which no pattern matches and the NLP toolkit
finds nothing. -/
def envTrivial : PatternEnv :=
  { retrievalPat := fun _ => false, comparisonPat := fun _ => false,
    notebookPat := fun _ => false, imagePat := fun _ => false,
    metadataPat := fun _ => false, explicitModelIds := fun _ => [],
    namedEntities := fun _ => [], familyMentions := fun _ => [],
    verbs := fun _ => [], nouns := fun _ => [],
    metricMatches := fun _ => [], archFilter := fun _ => none,
    frameworkFilter := fun _ => none, paramsFilter := fun _ => none,
    dateFilter := fun _ => none, sortMatch := fun _ => none,
    comparisonDims := fun _ => [], visualizePat := fun _ => false,
    analysisTypes := fun _ => [], datasetMatch := fun _ => none,
    resourcesMatch := fun _ => none, promptMatch := fun _ => none,
    styleTags := fun _ => none, resolutionMatch := fun _ => none }

/-- A pattern environment reporting two model-family mentions and a
comparison pattern match on every text. -/
def envCmp : PatternEnv :=
  { envTrivial with
    familyMentions := fun _ => ["gpt", "bert"]
    comparisonPat := fun _ => true }

/-- A dispatch environment whose collaborators all succeed and whose
searches return no results. -/
def envZero : DispatchEnv :=
  { embedText := fun _ => .ok [], imageEmbedImage := fun _ => .ok [],
    imageEmbedText := fun _ => .ok [],
    chromaSearch := fun _ => .ok (vdict [("results", vlist [])]),
    chromaGet := fun _ => .ok (vdict [("results", vlist [])]),
    fetchModelData := fun _ _ => .ok ⟨"m", false, none, none⟩,
    accessControl := none, clockMs := 0, nowEpoch := 0 }

/-! ## Claims -/

/-- C1: in rule-based intent classification (the external classifier tier
being unavailable), a query that mentions two or more distinct model
identifiers and matches a comparison-style pattern is classified as
Comparison, whatever the other intent patterns do on that text. The
mention list is deduplicated, so its length counts distinct identifiers;
the environment quantifies over every possible behaviour of the other
patterns. -/
theorem classify_intent_comparison_precedence (env : PatternEnv)
    (text : String)
    (hm : 1 < (extract_model_mentions env (pyLower text)).length)
    (hc : env.comparisonPat (pyLower text) = true) :
    classify_intent env text = QueryIntent.COMPARISON := by
  simp [classify_intent, hm, hc]

/-- Witness for C1 at the query `compare gpt and bert` in an environment
with two family mentions and a comparison pattern match. -/
theorem classify_intent_comparison_precedence_witness :
    1 < (extract_model_mentions envCmp
          (pyLower "compare gpt and bert")).length ∧
    envCmp.comparisonPat (pyLower "compare gpt and bert") = true ∧
    classify_intent envCmp "compare gpt and bert" =
      QueryIntent.COMPARISON :=
  ⟨by decide, rfl,
   classify_intent_comparison_precedence envCmp "compare gpt and bert"
     (by decide) rfl⟩

/-- C5 counterexample: the filter translator is not total on every input.
A string input passes the `None` and `list` guards and crashes at
`filters.items()` with `AttributeError` instead of returning an empty
filter. -/
theorem translate_filters_string_counterexample :
    translate_filters_to_chroma (vstr "pytorch") =
      .error "AttributeError: object has no attribute items" := rfl

/-- C5 amended: the translator never raises on `None`, list or mapping
inputs; `None` and a list yield the empty filter, and a mapping yields a
mapping with unique keys. Any other input (string, number, boolean)
raises `AttributeError`. -/
theorem translate_filters_guarded_total :
    translate_filters_to_chroma vnone = .ok (vdict []) ∧
    (∀ xs, translate_filters_to_chroma (vlist xs) = .ok (vdict [])) ∧
    (∀ kvs, ∃ out, translate_filters_to_chroma (vdict kvs) =
        .ok (vdict out) ∧ (keysD out).Nodup) :=
  ⟨rfl, fun _ => rfl,
   fun kvs => ⟨translateDict kvs, rfl, translateDict_nodup⟩⟩

/-- C6 counterexample: a filter mapping whose value carries several
recognized operators is not returned unchanged; only the last recognized
operator survives. -/
theorem translate_filters_multi_op_counterexample :
    translate_filters_to_chroma
        (vdict [("params", vdict [("$gt", vint 1), ("$lt", vint 5)])]) =
      .ok (vdict [("params", vdict [("$lt", vint 5)])]) ∧
    vdict [("params", vdict [("$lt", vint 5)])] ≠
      vdict [("params", vdict [("$gt", vint 1), ("$lt", vint 5)])] := by
  refine ⟨rfl, ?_⟩
  intro h
  simp at h

/-- C6 amended: a filter mapping with unique keys whose values each carry
exactly one recognized operator is returned unchanged, and translation is
idempotent in the functional sense: translating any translator output
again returns it unchanged. -/
theorem translate_filters_idempotent :
    (∀ kvs, (keysD kvs).Nodup → (∀ p ∈ kvs, isSingleOpDict p.2 = true) →
        translate_filters_to_chroma (vdict kvs) = .ok (vdict kvs)) ∧
    (∀ f g, translate_filters_to_chroma f = .ok g →
        translate_filters_to_chroma g = .ok g) := by
  constructor
  · intro kvs hnd hv
    simp [translate_filters_to_chroma, translateDict_fixpoint hnd hv]
  · intro f g hfg
    match f, hfg with
    | vnone, hfg =>
        cases hfg
        rfl
    | vlist xs, hfg =>
        cases hfg
        rfl
    | vdict kvs, hfg =>
        cases hfg
        simp [translate_filters_to_chroma,
          translateDict_fixpoint translateDict_nodup translateDict_values]

/-- Witness for C6 at the already-translated single-operator mapping
`architecture -> eq transformer` and at the `None` input for the
functional idempotence part. -/
theorem translate_filters_idempotent_witness :
    translate_filters_to_chroma
        (vdict [("architecture", vdict [("$eq", vstr "transformer")])]) =
      .ok (vdict [("architecture", vdict [("$eq", vstr "transformer")])]) ∧
    translate_filters_to_chroma (vdict []) = .ok (vdict []) :=
  ⟨translate_filters_idempotent.1
      [("architecture", vdict [("$eq", vstr "transformer")])]
      (by decide) (by decide),
   translate_filters_idempotent.2 vnone (vdict []) rfl⟩

/-- The single-operator shape, unfolded. -/
theorem singleOp_shape {v : Value} (h : isSingleOpDict v = true) :
    ∃ op x, v = vdict [(op, x)] ∧ op ∈ recognizedOps := by
  cases v with
  | vdict kvs =>
      match kvs, h with
      | [(op, x)], h =>
          exact ⟨op, x, rfl, by simpa [isSingleOpDict] using h⟩
  | vnone => simp [isSingleOpDict] at h
  | vbool b => simp [isSingleOpDict] at h
  | vint n => simp [isSingleOpDict] at h
  | vnum q => simp [isSingleOpDict] at h
  | vinf => simp [isSingleOpDict] at h
  | vstr s => simp [isSingleOpDict] at h
  | vlist xs => simp [isSingleOpDict] at h

/-- C10: every value in the translator output is a dict with exactly one
operator key from the recognized set; and an input key whose value dict
carries at least one recognized operator keeps a binding in the output
(so of several recognized operators exactly one constraint survives for
that key). -/
theorem translate_filters_single_operator :
    (∀ kvs p, p ∈ translateDict kvs →
        ∃ op x, p.2 = vdict [(op, x)] ∧ op ∈ recognizedOps) ∧
    (∀ kvs k ops, lookupD kvs k = some (vdict ops) →
        (∃ q ∈ ops, q.1 ∈ recognizedOps) →
        ∃ op x, lookupD (translateDict kvs) k = some (vdict [(op, x)]) ∧
          op ∈ recognizedOps) := by
  constructor
  · intro kvs p hp
    exact singleOp_shape (translateDict_values p hp)
  · intro kvs k ops hlk hop
    have hmem : (k, vdict ops) ∈ kvs := mem_of_lookupD hlk
    have hkey : k ∈ keysD (translateDict kvs) :=
      mem_keysD_translatePass2 kvs _ hmem hop
    rcases lookupD_isSome_of_mem_keysD hkey with ⟨w, hw⟩
    rcases singleOp_shape (translateDict_values (k, w) (mem_of_lookupD hw))
      with ⟨op, x, hshape, hrec⟩
    refine ⟨op, x, ?_, hrec⟩
    rw [hw]
    exact congrArg some hshape

/-- Witness for C10 at a mapping whose value carries the two recognized
operators gt and lt. -/
theorem translate_filters_single_operator_witness :
    ∃ op x,
      lookupD (translateDict
          [("params", vdict [("$gt", vint 1), ("$lt", vint 2)])])
        "params" = some (vdict [(op, x)]) ∧ op ∈ recognizedOps :=
  translate_filters_single_operator.2
    [("params", vdict [("$gt", vint 1), ("$lt", vint 2)])] "params"
    [("$gt", vint 1), ("$lt", vint 2)] rfl
    ⟨("$gt", vint 1), by simp, by simp [recognizedOps]⟩

/-- C2: a dispatch call with intent Notebook whose parameter bag (after
the optional access-control rewrite) has an empty or absent `model_ids`
returns the failed envelope with the ValidationError message; `dispatch`
is a total function, so the raised `ValueError` never propagates to the
caller. -/
theorem dispatch_notebook_requires_model_ids (env : DispatchEnv)
    (q : String) (params : List (String × Value)) (uid : Option String)
    (p' : List (String × Value))
    (hp' : p' = (match env.accessControl, uid with
                 | some f, some u => f params u
                 | _, _ => params))
    (h : lookupD p' "model_ids" = none ∨
         lookupD p' "model_ids" = some (vlist [])) :
    dispatch env q (Sum.inr QueryIntent.NOTEBOOK) params uid =
      vdict [("success", vbool false),
             ("error",
              vstr "Notebook generation requires at least one model ID"),
             ("metadata", vdict
               [("intent", vstr "notebook"),
                ("execution_time_ms", vnum env.clockMs)])] := by
  have hhandler : handle_notebook_request env q p' =
      .error "Notebook generation requires at least one model ID" := by
    rcases h with h | h <;> simp [handle_notebook_request, h, pyTruthy] <;>
      rfl
  unfold dispatch
  rw [← hp']
  simp only [handlerFor, hhandler, QueryIntent.value]

/-- Witness for C2: the zero-results environment, an empty parameter bag,
no user id. -/
theorem dispatch_notebook_requires_model_ids_witness :
    dispatch envZero "q" (Sum.inr QueryIntent.NOTEBOOK) [] none =
      vdict [("success", vbool false),
             ("error",
              vstr "Notebook generation requires at least one model ID"),
             ("metadata", vdict
               [("intent", vstr "notebook"),
                ("execution_time_ms", vnum 0)])] :=
  dispatch_notebook_requires_model_ids envZero "q" [] none [] rfl
    (Or.inl rfl)

/-- The text-search envelope of the zero-results environment. -/
def textZeroResult : Value :=
  vdict [("success", vbool true), ("type", vstr "text_search"),
         ("items", vlist []), ("total_found", vint 0),
         ("performance", vdict
           [("embedding_time_ms", vnum 0), ("search_time_ms", vnum 0),
            ("total_time_ms", vnum 0)])]

/-- The metadata-search envelope of the zero-results environment. -/
def metadataZeroResult : Value :=
  vdict [("success", vbool true), ("type", vstr "metadata_search"),
         ("items", vlist []), ("total_found", vint 0),
         ("performance", vdict
           [("search_time_ms", vnum 0), ("total_time_ms", vnum 0)])]

/-- C9: when the text-search path succeeds with zero results and the
metadata-search path also succeeds with zero results, the fallback
handler returns the successful empty envelope with its explanatory
message — never a failed envelope. -/
theorem fallback_zero_results (env : DispatchEnv) (q : String)
    (params : List (String × Value)) (r1 r2 : Value)
    (h1 : handle_text_search env q params = .ok r1)
    (h1z : dGet r1 "total_found" = some (vint 0))
    (h2 : handle_metadata_search env q params = .ok r2)
    (h2z : dGet r2 "total_found" = some (vint 0)) :
    handle_fallback_search env q params = .ok (vdict
      [("success", vbool true), ("type", vstr "fallback_search"),
       ("items", vlist []), ("total_found", vint 0),
       ("message",
        vstr "No results found using various search strategies")]) := by
  unfold handle_fallback_search
  cases hs1 : pyTruthy ((dGet r1 "success").getD (vbool false)) <;>
    cases hs2 : pyTruthy ((dGet r2 "success").getD (vbool false)) <;>
    simp [h1, h2, h1z, h2z, hs1, hs2, pyGt0, Bind.bind, Except.bind,
      Pure.pure, Except.pure]

/-- Witness for C9: the zero-results environment. -/
theorem fallback_zero_results_witness :
    handle_text_search envZero "q" [] = .ok textZeroResult ∧
    handle_metadata_search envZero "q" [] = .ok metadataZeroResult ∧
    handle_fallback_search envZero "q" [] = .ok (vdict
      [("success", vbool true), ("type", vstr "fallback_search"),
       ("items", vlist []), ("total_found", vint 0),
       ("message",
        vstr "No results found using various search strategies")]) :=
  ⟨rfl, rfl,
   fallback_zero_results envZero "q" [] textZeroResult metadataZeroResult
     rfl rfl rfl rfl⟩

/-- C7 counterexample: the code records a pairwise improvement only for a
strictly positive denominator (`loss2 > 0`), not for every nonzero one.
With model A at loss 1 and model B at loss -2 (nonzero), the `A_vs_B`
improvements dict is empty: no loss entry is recorded. -/
theorem perf_negative_denominator_counterexample :
    (lookupD (generate_performance_comparisons
        [⟨"A", true, some ⟨none, some 1, none, none⟩, none⟩,
         ⟨"B", true, some ⟨none, some (-2), none, none⟩, none⟩])
        "relative_improvement").bind (fun v => dGet v "A_vs_B") =
      some (vdict []) ∧ ((-2 : ℚ) ≠ 0) :=
  ⟨rfl, by norm_num⟩

/-- C7 amended: for every ordered pair of distinct models with both values
present for a metric and a strictly positive (rather than merely nonzero)
denominator, the pair record carries the absolute difference, the
percentage difference relative to the denominator, and the
better-than flag — higher wins for accuracy, lower wins for loss and
perplexity; and in the two-model comparison the `relative_improvement`
summary maps the `i_vs_j` key to exactly that record. -/
theorem pair_improvements_records (p1 p2 : Perf) (m1 m2 : ModelData)
    (a1 a2 l1 l2 x1 x2 : ℚ) :
    (p1.accuracy = some a1 → p2.accuracy = some a2 → 0 < a2 →
        lookupD (pairImprovements p1 p2) "accuracy" = some (vdict
          [("absolute", vnum (a1 - a2)),
           ("percentage", vnum ((a1 - a2) / a2 * 100)),
           ("better", vbool (decide (a2 < a1)))])) ∧
    (p1.loss = some l1 → p2.loss = some l2 → 0 < l2 →
        lookupD (pairImprovements p1 p2) "loss" = some (vdict
          [("absolute", vnum (l1 - l2)),
           ("percentage", vnum ((l1 - l2) / l2 * 100)),
           ("better", vbool (decide (l1 < l2)))])) ∧
    (p1.perplexity = some x1 → p2.perplexity = some x2 → 0 < x2 →
        lookupD (pairImprovements p1 p2) "perplexity" = some (vdict
          [("absolute", vnum (x1 - x2)),
           ("percentage", vnum ((x1 - x2) / x2 * 100)),
           ("better", vbool (decide (x1 < x2)))])) ∧
    (m1.found = true → m2.found = true →
     m1.performance = some p1 → m2.performance = some p2 →
     m1.model_id ++ "_vs_" ++ m2.model_id ≠
       m2.model_id ++ "_vs_" ++ m1.model_id →
     lookupD (generate_performance_comparisons [m1, m2])
         "relative_improvement" =
       some (vdict (relativeImprovements [m1, m2])) ∧
     lookupD (relativeImprovements [m1, m2])
         (m1.model_id ++ "_vs_" ++ m2.model_id) =
       some (vdict (pairImprovements p1 p2))) := by
  refine ⟨?_, ?_, ?_, ?_⟩
  · intro ha1 ha2 hpos
    unfold pairImprovements
    rw [ha1, ha2]
    simp only [hpos, if_true]
    cases hl1 : p1.loss <;> cases hl2 : p2.loss <;>
      cases hx1 : p1.perplexity <;> cases hx2 : p2.perplexity <;>
      (repeat' split) <;> simp [lookupD_insertD_ne]
  · intro hl1 hl2 hpos
    unfold pairImprovements
    rw [hl1, hl2]
    simp only [hpos, if_true]
    cases ha1 : p1.accuracy <;> cases ha2 : p2.accuracy <;>
      cases hx1 : p1.perplexity <;> cases hx2 : p2.perplexity <;>
      (repeat' split) <;> simp [lookupD_insertD_ne]
  · intro hx1 hx2 hpos
    unfold pairImprovements
    rw [hx1, hx2]
    simp only [hpos, if_true]
    cases ha1 : p1.accuracy <;> cases ha2 : p2.accuracy <;>
      cases hl1 : p1.loss <;> cases hl2 : p2.loss <;>
      (repeat' split) <;> simp [lookupD_insertD_ne]
  · intro hf1 hf2 hperf1 hperf2 hkeys
    have hmw : modelsWithPerf [m1, m2] = [m1, m2] := by
      simp [modelsWithPerf, List.filter, hf1, hf2, hperf1, hperf2]
    constructor
    · unfold generate_performance_comparisons
      rw [hmw]
      simp only [List.length_cons, List.length_nil]
      norm_num
    · unfold relativeImprovements
      simp only [List.enum, List.enumFrom, List.foldl]
      norm_num
      rw [lookupD_insertD_ne _ _ _ _ hkeys]
      simp [perfD, hperf1, hperf2]

/-- Performance records used by the C7 witness. -/
def perfW1 : Perf := ⟨some (9/10), some 1, some 5, none⟩

def perfW2 : Perf := ⟨some (3/4), some 2, some 10, none⟩

def modelW1 : ModelData := ⟨"A", true, some perfW1, none⟩

def modelW2 : ModelData := ⟨"B", true, some perfW2, none⟩

/-- Witness for C7 at two concrete models with full performance data. -/
theorem pair_improvements_records_witness :
    lookupD (pairImprovements perfW1 perfW2) "accuracy" = some (vdict
      [("absolute", vnum ((9 : ℚ)/10 - 3/4)),
       ("percentage", vnum (((9 : ℚ)/10 - 3/4) / (3/4) * 100)),
       ("better", vbool (decide ((3 : ℚ)/4 < 9/10)))]) ∧
    lookupD (pairImprovements perfW1 perfW2) "loss" = some (vdict
      [("absolute", vnum ((1 : ℚ) - 2)),
       ("percentage", vnum (((1 : ℚ) - 2) / 2 * 100)),
       ("better", vbool (decide ((1 : ℚ) < 2)))]) ∧
    lookupD (pairImprovements perfW1 perfW2) "perplexity" = some (vdict
      [("absolute", vnum ((5 : ℚ) - 10)),
       ("percentage", vnum (((5 : ℚ) - 10) / 10 * 100)),
       ("better", vbool (decide ((5 : ℚ) < 10)))]) ∧
    lookupD (relativeImprovements [modelW1, modelW2]) "A_vs_B" =
      some (vdict (pairImprovements perfW1 perfW2)) :=
  have h := pair_improvements_records perfW1 perfW2 modelW1 modelW2
    (9/10) (3/4) 1 2 5 10
  ⟨h.1 rfl rfl (by norm_num), h.2.1 rfl rfl (by norm_num),
   h.2.2.1 rfl rfl (by norm_num),
   (h.2.2.2 rfl rfl rfl rfl (by decide)).2⟩

/-- C3 counterexample: a garbage (non-integer) limit in the parameter bag
reaches the metadata-search request unreplaced. The request built for
`chroma_manager.get` carries the string `ten` as its limit, which is not
a positive integer and is not the metadata default 20. -/
theorem metadata_limit_counterexample :
    metadata_request [("limit", vstr "ten")] =
      .ok { collection := "model_scripts", limit := vstr "ten",
            whereFilter := vdict [], includeFields := ["metadatas"] } ∧
    pyIsInt (vstr "ten") = false ∧ vstr "ten" ≠ vint 20 :=
  ⟨rfl, rfl, fun h => Value.noConfusion h⟩

/-- C3 amended: a limit produced by rule-based extraction is a
nonnegative integer (the digit capture of the limit pattern, which may be
zero). Only the text-search handler replaces a non-integer limit, with
its default 10; the image-search and metadata-search handlers use their
default 20 only when the key is absent and pass a present limit to the
store request unchanged, whatever its type. -/
theorem limit_handling_amended (env : PatternEnv) (text : String)
    (intent : QueryIntent) (emb : List ℚ)
    (params1 params2 params3 : List (String × Value))
    (req1 : SearchReq) (req3 : GetReq)
    (h1 : text_search_request emb params1 = .ok req1)
    (h3 : metadata_request params3 = .ok req3) :
    (∀ v, lookupD (extract_parameters env text intent) "limit" = some v →
        ∃ n : ℕ, v = vint n) ∧
    req1.limit = (if pyIsInt ((lookupD params1 "limit").getD (vint 10))
                  then (lookupD params1 "limit").getD (vint 10)
                  else vint 10) ∧
    (image_search_request emb params2).limit =
      (lookupD params2 "limit").getD (vint 20) ∧
    req3.limit = (lookupD params3 "limit").getD (vint 20) := by
  refine ⟨?_, ?_, rfl, ?_⟩
  · intro v hv
    rw [lookupD_extract_limit] at hv
    cases hl : limitSearch (pyLower text) with
    | none => rw [hl] at hv; simp at hv
    | some n =>
        rw [hl] at hv
        simp at hv
        exact ⟨n, hv.symm⟩
  · cases htr : translate_filters_to_chroma
        ((lookupD params1 "filters").getD (vdict [])) with
    | error e =>
        unfold text_search_request at h1
        simp [htr, Bind.bind, Except.bind] at h1
    | ok cf =>
        unfold text_search_request at h1
        simp [htr, Bind.bind, Except.bind] at h1
        rw [← h1]
  · cases htr : translate_filters_to_chroma
        ((lookupD params3 "filters").getD (vdict [])) with
    | error e =>
        unfold metadata_request at h3
        simp [htr, Bind.bind, Except.bind] at h3
    | ok cf =>
        unfold metadata_request at h3
        simp [htr, Bind.bind, Except.bind] at h3
        rw [← h3]

/-- The text-search request of the C3 witness (non-integer limit replaced
by 10). -/
def reqW1 : SearchReq :=
  { collection := "model_scripts", embedding := [],
    whereFilter := vdict [], limit := vint 10,
    includeFields := ["metadatas", "documents"] }

/-- The metadata request of the C3 witness (garbage limit passed on). -/
def reqW3 : GetReq :=
  { collection := "model_scripts", limit := vstr "ten",
    whereFilter := vdict [], includeFields := ["metadatas"] }

/-- Witness for C3: the query `show top 7 models`, a text-search bag with
a string limit, an empty image bag, and a metadata bag with a string
limit. -/
theorem limit_handling_amended_witness :
    lookupD (extract_parameters envTrivial "show top 7 models"
        QueryIntent.RETRIEVAL) "limit" = some (vint 7) ∧
    (∃ n : ℕ, vint 7 = vint n) ∧ reqW1.limit = vint 10 ∧
    (image_search_request [] []).limit = vint 20 ∧
    reqW3.limit = vstr "ten" :=
  have h := limit_handling_amended envTrivial "show top 7 models"
    QueryIntent.RETRIEVAL [] [("limit", vstr "x")] []
    [("limit", vstr "ten")] reqW1 reqW3 rfl rfl
  ⟨rfl, h.1 (vint 7) rfl, h.2.1, h.2.2.1, h.2.2.2⟩

/-- C4 counterexample: on a query with no model mention the rule-based
bag still carries the `model_ids` key, bound to the empty list — the key
is not omitted. -/
theorem model_ids_always_present_counterexample :
    extract_model_mentions envTrivial "hello" = [] ∧
    lookupD (extract_parameters envTrivial "hello" QueryIntent.RETRIEVAL)
      "model_ids" = some (vlist []) :=
  ⟨rfl, rfl⟩

/-- C4 amended: in the rule-based extraction path every key other than
`model_ids` is present exactly when its pattern matched, bound to a
non-null value of the documented shape, and is omitted (not set to null)
otherwise; keys outside the fixed vocabulary never appear. `model_ids`
however is always present, as the (possibly empty) list of model
mentions. -/
theorem extract_parameters_key_presence (env : PatternEnv) (text : String)
    (intent : QueryIntent) :
    lookupD (extract_parameters env text intent) "model_ids" =
      some (vlist ((extract_model_mentions env text).map vstr)) ∧
    lookupD (extract_parameters env text intent) "metrics" =
      (if (env.metricMatches (pyLower text)).isEmpty then none
       else some (vlist ((env.metricMatches (pyLower text)).map vstr))) ∧
    lookupD (extract_parameters env text intent) "filters" =
      (if (buildFilters env (pyLower text)).isEmpty then none
       else some (vdict (buildFilters env (pyLower text)))) ∧
    lookupD (extract_parameters env text intent) "limit" =
      ((limitSearch (pyLower text)).map fun n => vint n) ∧
    lookupD (extract_parameters env text intent) "sort_by" =
      ((env.sortMatch (pyLower text)).map fun p =>
        vdict [("field", vstr p.1),
               ("order", vstr (p.2.getD "descending"))]) ∧
    lookupD (extract_parameters env text intent) "comparison_dimensions" =
      (if intent = QueryIntent.COMPARISON ∧
          (env.comparisonDims (pyLower text)).isEmpty = false
       then some (vlist ((env.comparisonDims (pyLower text)).map vstr))
       else none) ∧
    lookupD (extract_parameters env text intent) "visualize" =
      (if intent = QueryIntent.COMPARISON ∧
          env.visualizePat (pyLower text) = true
       then some (vbool true) else none) ∧
    lookupD (extract_parameters env text intent) "analysis_types" =
      (if intent = QueryIntent.NOTEBOOK ∧
          (env.analysisTypes (pyLower text)).isEmpty = false
       then some (vlist ((env.analysisTypes (pyLower text)).map vstr))
       else none) ∧
    lookupD (extract_parameters env text intent) "dataset" =
      (if intent = QueryIntent.NOTEBOOK
       then (env.datasetMatch (pyLower text)).map vstr else none) ∧
    lookupD (extract_parameters env text intent) "resources" =
      (if intent = QueryIntent.NOTEBOOK
       then (env.resourcesMatch (pyLower text)).map vstr else none) ∧
    lookupD (extract_parameters env text intent) "prompt_terms" =
      (if intent = QueryIntent.IMAGE_SEARCH
       then (env.promptMatch (pyLower text)).map vstr else none) ∧
    lookupD (extract_parameters env text intent) "style_tags" =
      (if intent = QueryIntent.IMAGE_SEARCH
       then (env.styleTags (pyLower text)).map fun tags =>
         vlist (tags.map vstr)
       else none) ∧
    lookupD (extract_parameters env text intent) "resolution" =
      (if intent = QueryIntent.IMAGE_SEARCH
       then (env.resolutionMatch (pyLower text)).map fun p =>
         vdict [("width", vint p.1), ("height", vint p.2)]
       else none) ∧
    (∀ k, k ∉ ["model_ids", "metrics", "filters", "limit", "sort_by",
        "comparison_dimensions", "visualize", "analysis_types", "dataset",
        "resources", "prompt_terms", "style_tags", "resolution"] →
      lookupD (extract_parameters env text intent) k = none) := by
  refine ⟨lookupD_extract_model_ids env text intent,
    lookupD_extract_metrics env text intent,
    lookupD_extract_filters env text intent,
    lookupD_extract_limit env text intent,
    lookupD_extract_sort_by env text intent,
    lookupD_extract_comparison_dims env text intent,
    lookupD_extract_visualize env text intent,
    lookupD_extract_analysis_types env text intent,
    lookupD_extract_dataset env text intent,
    lookupD_extract_resources env text intent,
    lookupD_extract_prompt_terms env text intent,
    lookupD_extract_style_tags env text intent,
    lookupD_extract_resolution env text intent, ?_⟩
  intro k hk
  simp only [List.mem_cons, List.not_mem_nil, or_false, not_or] at hk
  obtain ⟨h1, h2, h3, h4, h5, h6, h7, h8, h9, h10, h11, h12, h13⟩ := hk
  cases intent <;> simp only [extract_parameters] <;>
    (try rw [lookupD_comparison_extra _ _ _ _ h6 h7]) <;>
    (try rw [lookupD_notebook_extra _ _ _ _ h8 h9 h10]) <;>
    (try rw [lookupD_image_extra _ _ _ _ h11 h12 h13]) <;>
    exact lookupD_rule_base_other env text k h1 h2 h3 h4 h5

/-- Architecture data of the models used for C8: both parameter counts
positive, all complexity fields positive. -/
def archE1 : Arch := ⟨"transformer", some 768, some 12, some 12,
  some 1000000⟩

def archE2 : Arch := ⟨"transformer", some 1024, some 24, some 16,
  some 2000000⟩

/-- Model A: architecture data and a defined accuracy. -/
def modelE1 : ModelData :=
  ⟨"A", true, some ⟨some 1, none, none, none⟩, some archE1⟩

/-- Model B: architecture data but no performance record at all. -/
def modelE2 : ModelData := ⟨"B", true, none, some archE2⟩

/-- C8 counterexample: with every parameter count positive but one model
lacking any accuracy value, the efficiency summary is still produced — it
carries exactly one entry, for the model that does have accuracy, so a
missing accuracy on one compared model does not suppress the summary. -/
theorem efficiency_without_universal_accuracy_counterexample :
    modelE2.performance = none ∧
    (generate_architecture_comparisons [modelE1, modelE2]).map
        (fun c => (lookupD c "efficiency").map fun v =>
          match v with
          | vdict kvs => keysD kvs
          | _ => []) =
      .ok (some ["A"]) :=
  ⟨rfl, by rfl⟩

/-- C8 amended: under defined architecture fields, the efficiency summary
is produced exactly when every compared model has a strictly positive
parameter count and at least one model has performance data with a
defined accuracy; a model lacking accuracy is omitted from, but does not
suppress, the summary, while any non-positive parameter count (or no
accuracy anywhere) suppresses it. -/
theorem efficiency_summary_condition (l : List ModelData)
    (hlen : 2 ≤ (modelsWithArch l).length)
    (hfields : ∀ m ∈ modelsWithArch l,
      ((archD m).total_parameters).isSome ∧
      ((archD m).num_layers).isSome ∧
      ((archD m).num_attention_heads).isSome ∧
      ((archD m).hidden_size).isSome) :
    ∃ c, generate_architecture_comparisons l = .ok c ∧
      ((∃ m ∈ modelsWithArch l, paramsPos m = false) →
          lookupD c "efficiency" = none) ∧
      ((∀ m ∈ modelsWithArch l, contributesEff m = false) →
          lookupD c "efficiency" = none) ∧
      ((∀ m ∈ modelsWithArch l, paramsPos m = true) →
       (∃ m ∈ modelsWithArch l, contributesEff m = true) →
          ∃ eff, eff ≠ [] ∧ lookupD c "efficiency" = some (vdict eff)) := by
  obtain ⟨szb, hszb⟩ := modelSizeBlock_ok _ (fun m hm => (hfields m hm).1)
  obtain ⟨cxb, hcxb⟩ := complexityBlock_ok _ (fun m hm =>
    ⟨(hfields m hm).2.1, (hfields m hm).2.2.1, (hfields m hm).2.2.2⟩)
  have hguard := allPosE_params _ (fun m hm => (hfields m hm).1)
  obtain ⟨eff, heff, hiff⟩ :=
    efficiencyEntries_ok _ (fun m hm => (hfields m hm).1)
  have hne : ¬ (modelsWithArch l).length < 2 := by omega
  by_cases hg : (modelsWithArch l).all paramsPos = true
  · by_cases hee : eff.isEmpty = true
    · refine ⟨[("architecture_types", vdict (archTypes (modelsWithArch l))),
        ("model_size", szb), ("complexity", cxb)], ?_, ?_, ?_, ?_⟩
      · unfold generate_architecture_comparisons
        simp [hne, hszb, hcxb, hguard, heff, hg, hee,
          Bind.bind, Except.bind, Pure.pure, Except.pure]
      · intro _; simp [lookupD]
      · intro _; simp [lookupD]
      · intro _ hex
        obtain ⟨m, hm, hc⟩ := hex
        have hall := hiff.mp (List.isEmpty_iff.mp hee) m hm
        rw [hc] at hall
        cases hall
    · refine ⟨[("architecture_types", vdict (archTypes (modelsWithArch l))),
        ("model_size", szb), ("complexity", cxb)] ++
          [("efficiency", vdict eff)], ?_, ?_, ?_, ?_⟩
      · unfold generate_architecture_comparisons
        simp [hne, hszb, hcxb, hguard, heff, hg, hee,
          Bind.bind, Except.bind, Pure.pure, Except.pure]
      · intro hex
        obtain ⟨m, hm, hc⟩ := hex
        have := List.all_eq_true.mp hg m hm
        rw [hc] at this
        cases this
      · intro hall
        exact absurd (List.isEmpty_iff.mpr (hiff.mpr hall)) (by simp [hee])
      · intro _ _
        refine ⟨eff, by simpa using hee, ?_⟩
        simp [lookupD]
  · refine ⟨[("architecture_types", vdict (archTypes (modelsWithArch l))),
      ("model_size", szb), ("complexity", cxb)], ?_, ?_, ?_, ?_⟩
    · unfold generate_architecture_comparisons
      simp [hne, hszb, hcxb, hguard, heff, hg,
        Bind.bind, Except.bind, Pure.pure, Except.pure]
    · intro _; simp [lookupD]
    · intro _; simp [lookupD]
    · intro hall _
      exact absurd (List.all_eq_true.mpr hall) hg

/-- Witness for C8: the two concrete models above, both with positive
parameter counts, one with accuracy data. -/
theorem efficiency_summary_condition_witness :
    ∃ c, generate_architecture_comparisons [modelE1, modelE2] = .ok c ∧
      ∃ eff, eff ≠ [] ∧ lookupD c "efficiency" = some (vdict eff) := by
  obtain ⟨c, hc, _, _, h3⟩ :=
    efficiency_summary_condition [modelE1, modelE2] (by decide) (by decide)
  exact ⟨c, hc, h3 (by decide) ⟨modelE1, by decide, by decide⟩⟩

end RagSystem
